import Mathlib

/-!
# miro-grider: selection grid and grid materializer

A shallow embedding of `grider.js`.

* Pointer offsets are rationals, loop counters and array indices are `Nat`,
  computed cell coordinates are `Int`.
* The numbers `createGrid` computes are JS numbers (`JSNum`): arithmetic is
  evaluated where its result is exact and is otherwise kept as the operation
  that yields it; the two numeric fields of the page are strings.
* The module-level mutable variables (`shadowGrid`, `objectTypes`) are passed
  explicitly: every statement maps a state to the state reached together with
  the exception thrown, if any.
* A JS array of booleans is a list of slots, a slot being `none` for
  `undefined` (a hole or an index past the end).
* The whiteboard host is an injected pair of fallible operations; the calls
  made to it are recorded in a trace.
-/

namespace Grider

/-! ## Settings and errors -/

/-- Settings for the preview (`previewSettings`). -/
structure PreviewSettings where
  size : Nat
  margin : Nat
  elementsCount : Nat
deriving DecidableEq, Repr

/-- The settings the program is loaded with. -/
def previewSettings : PreviewSettings := ⟨20, 4, 12⟩

/-- Exceptions raised by the language itself: reading a property of `undefined`. -/
inductive JSError where
  | typeError
deriving DecidableEq, Repr

/-! ## Loops over a mutable state -/

/-- The loop `for (let i = 0; i < n; i++) body(i)` over a mutable state: the
iterations run in ascending order, and the first exception stops the loop and
leaves the state as it was when the exception was thrown. -/
def forRange {σ : Type} (n : Nat) (body : Nat → σ → σ × Option JSError) (s : σ) :
    σ × Option JSError :=
  (List.range n).foldl
    (fun acc i => match acc.2 with
      | none => body i acc.1
      | some _ => acc)
    (s, none)

/-! ## The selection grid -/

/-- A slot of a JS array of booleans; `none` is `undefined`. -/
abbrev Cell := Option Bool

/-- One inner array of `shadowGrid`: `shadowGrid[x]`. -/
abbrev Column := List Cell

/-- The array of arrays `shadowGrid`, indexed `shadowGrid[x][y]`. -/
abbrev Grid := List Column

/-- The element read `a[i]` of an array at an integer index; `none` is
`undefined` (index negative or past the end). -/
def arrayGet {α : Type} (a : List α) (i : Int) : Option α :=
  if 0 ≤ i then a[i.toNat]? else none

/-- The read `col[j]` of a boolean array: a hole reads as `undefined`. Only the
indexed elements are modelled, so a negative key reads as `undefined`. -/
def cellGet (col : Column) (j : Int) : Cell :=
  (arrayGet col j).join

/-- The write `col[j] = v`. An index inside the array overwrites the slot; an
index at or past the end lengthens the array, the skipped slots being holes; a
negative key is not an array index, so the elements stay as they are. -/
def cellSet (col : Column) (j : Int) (v : Cell) : Column :=
  if j < 0 then col
  else if j.toNat < col.length then col.set j.toNat v
  else col ++ List.replicate (j.toNat - col.length) none ++ [v]

/-- The read `shadowGrid[x][y]`; a `TypeError` when `shadowGrid[x]` is `undefined`. -/
def readCell (g : Grid) (x y : Int) : Except JSError Cell :=
  match arrayGet g x with
  | none => .error .typeError
  | some col => .ok (cellGet col y)

/-- The statement `shadowGrid[x][y] = v`; a `TypeError`, with the grid left as
it is, when `shadowGrid[x]` is `undefined`. -/
def writeCell (g : Grid) (x y : Int) (v : Bool) : Grid × Option JSError :=
  match arrayGet g x with
  | none => (g, some .typeError)
  | some col => (g.set x.toNat (cellSet col y (some v)), none)

/-- The operator `!` on a slot: `!undefined` is `true`. -/
def jsNot : Cell → Bool
  | none => true
  | some b => !b

/-- The test `v == true` on a slot: `undefined == true` is `false`. -/
def looseEqTrue : Cell → Bool
  | some true => true
  | _ => false

/-- The test `v === false` on a slot. -/
def strictEqFalse : Cell → Bool
  | some false => true
  | _ => false

/-- The statement `grid[i].push(v)` of `initShadowGrid`. -/
def pushCell (g : Grid) (i : Nat) (v : Cell) : Grid × Option JSError :=
  match g[i]? with
  | none => (g, some .typeError)
  | some col => (g.set i (col ++ [v]), none)

/-- The function `initShadowGrid`: for each `i`, push an empty array and then
push `false` onto it `elementsCount` times. -/
def initShadowGrid (ps : PreviewSettings) : Except JSError Grid :=
  match forRange ps.elementsCount
      (fun i g => forRange ps.elementsCount (fun _ g => pushCell g i (some false)) (g ++ [[]]))
      ([] : Grid) with
  | (g, none) => .ok g
  | (_, some e) => .error e

/-- The shift branch of `toggleRectSelected`:
`shadowGrid[clickedX][clickedY] = !shadowGrid[clickedX][clickedY]`. -/
def toggleCell (g : Grid) (clickedX clickedY : Int) : Grid × Option JSError :=
  match readCell g clickedX clickedY with
  | .error e => (g, some e)
  | .ok v => writeCell g clickedX clickedY (jsNot v)

/-- The non-shift branch of `toggleRectSelected`: for `y`, for `x`,
`shadowGrid[x][y] = (x <= clickedX && y <= clickedY)`. -/
def fillRectangleFromOrigin (ps : PreviewSettings) (g : Grid) (clickedX clickedY : Int) :
    Grid × Option JSError :=
  forRange ps.elementsCount
    (fun y g => forRange ps.elementsCount
      (fun x g => writeCell g x y (decide ((x : Int) ≤ clickedX) && decide ((y : Int) ≤ clickedY)))
      g)
    g

/-! ## Drawing the preview -/

/-- The calls made on the 2D context of the preview canvas. -/
inductive CanvasOp where
  | clearRect (x y w h : Int)
  | strokeStyle (color : String)
  | strokeRect (x y w h : Int)
deriving DecidableEq, Repr

/-- The `width` and `height` attributes of the preview canvas. -/
structure Canvas where
  width : Nat
  height : Nat
deriving DecidableEq, Repr

/-- The call `parseInt(v)` on a pixel coordinate of the preview: the digits
before the decimal point, that is, `v` rounded toward zero. (Numbers whose
string form uses an exponent, of magnitude below `1e-6` or at least `1e21`,
are outside the model.) -/
def parseIntNum (v : ℚ) : Int :=
  if 0 ≤ v then ⌊v⌋ else ⌈v⌉

/-- The rectangle stroked for cell `(x, y)`: the four arguments of `strokeRect`. -/
def cellRect (ps : PreviewSettings) (x y : Nat) : CanvasOp :=
  .strokeRect
    (parseIntNum ((ps.margin : ℚ) + ((x : ℚ) * (ps.size : ℚ)) + ((x : ℚ) * (ps.margin : ℚ))))
    (parseIntNum ((ps.margin : ℚ) + ((y : ℚ) * (ps.size : ℚ)) + ((y : ℚ) * (ps.margin : ℚ))))
    (ps.size : Int)
    (ps.size : Int)

/-- The function `refreshGridSelector`: clear the canvas, then for `y`, for `x`,
choose the stroke colour from `shadowGrid[x][y] === false` and stroke the
square of the cell. The state is the sequence of context calls made so far. -/
def refreshGridSelector (ps : PreviewSettings) (canvas : Canvas) (g : Grid) :
    List CanvasOp × Option JSError :=
  forRange ps.elementsCount
    (fun y ops => forRange ps.elementsCount
      (fun x ops =>
        match readCell g x y with
        | .error e => (ops, some e)
        | .ok v =>
          (ops ++ [.strokeStyle (if strictEqFalse v then "#E1E0E7" else "#050038"),
                   cellRect ps x y], none))
      ops)
    [.clearRect 0 0 canvas.width canvas.height]

/-! ## The click handler -/

/-- The fields of the click event the handler reads, with the bounding
rectangle of its target. -/
structure ClickEvent where
  clientX : ℚ
  clientY : ℚ
  rectLeft : ℚ
  rectTop : ℚ
  shiftKey : Bool

/-- The handler's `clickedX`:
`Math.floor((e.clientX - rect.left) / (previewSettings.size + previewSettings.margin))`. -/
def clickedX (ps : PreviewSettings) (e : ClickEvent) : Int :=
  ⌊(e.clientX - e.rectLeft) / (((ps.size + ps.margin : Nat)) : ℚ)⌋

/-- The handler's `clickedY`:
`Math.floor((e.clientY - rect.top) / (previewSettings.size + previewSettings.margin))`. -/
def clickedY (ps : PreviewSettings) (e : ClickEvent) : Int :=
  ⌊(e.clientY - e.rectTop) / (((ps.size + ps.margin : Nat)) : ℚ)⌋

/-- What a click leaves behind: the selection grid, the context calls of the
redraw, and the exception the handler threw, if any. -/
structure ClickOutcome where
  shadowGrid : Grid
  drawn : List CanvasOp
  thrown : Option JSError

/-- The handler `toggleRectSelected`: compute the clicked cell, toggle it (shift
held) or fill the rectangle from the origin, then redraw the preview. -/
def toggleRectSelected (ps : PreviewSettings) (canvas : Canvas) (e : ClickEvent) (g : Grid) :
    ClickOutcome :=
  let r :=
    if e.shiftKey then toggleCell g (clickedX ps e) (clickedY ps e)
    else fillRectangleFromOrigin ps g (clickedX ps e) (clickedY ps e)
  match r.2 with
  | some err => ⟨r.1, [], some err⟩
  | none =>
    let d := refreshGridSelector ps canvas r.1
    ⟨r.1, d.1, d.2⟩

/-! ## Shape and contents of a grid -/

/-- A grid of `n` columns of `n` slots each. -/
def IsSquare (n : Nat) (g : Grid) : Prop :=
  g.length = n ∧ ∀ col ∈ g, col.length = n

instance (n : Nat) (g : Grid) : Decidable (IsSquare n g) := by
  unfold IsSquare; infer_instance

/-- The slot at column `i`, row `j`: the value of `shadowGrid[i][j]`, with
`undefined` also where the column is absent. -/
def cellAt (g : Grid) (i j : Nat) : Cell :=
  match g[i]? with
  | none => none
  | some col => (col[j]?).join

/-! ## JavaScript numbers and numeric strings -/

/-- A JS number. `fin q` is the finite number of exact value `q` (`fin 0` is
`+0`), `negZero` is `-0`, `nan` is `NaN`. The model evaluates arithmetic only
where the result is exact (see `Exact`); everywhere else a number is kept as
the operation that yields it, applied to its operands: `ofString s` is
`Number(s)`, `intOfString s` is `parseInt(s)`, `intOf a` is `parseInt(a)`, and
`add`, `mul`, `div` are `a + b`, `a * b`, `a / b`. Such a term stands for the
one double the operation returns; the model says nothing more about its value. -/
inductive JSNum where
  | nan
  | negZero
  | fin (q : ℚ)
  | ofString (s : String)
  | intOfString (s : String)
  | intOf (a : JSNum)
  | add (a b : JSNum)
  | mul (a b : JSNum)
  | div (a b : JSNum)
deriving DecidableEq

/-- A rational the model computes with: `m / 1024` for an integer `m` with
`|m| <= 2^53`. Every such value is a double, so an operation on doubles whose
exact result is such a value returns exactly that value, and its decimal string
form has no exponent. -/
def Exact (q : ℚ) : Prop :=
  |q| ≤ 2 ^ 43 ∧ ((⌊q * 1024⌋ : Int) : ℚ) = q * 1024

instance (q : ℚ) : Decidable (Exact q) := by
  unfold Exact; infer_instance

/-- The operator `a + b` on numbers. -/
def jsAdd (a b : JSNum) : JSNum :=
  match a, b with
  | .nan, _ => .nan
  | _, .nan => .nan
  | .negZero, .negZero => .negZero
  | .negZero, .fin q => if Exact q then .fin q else .add a b
  | .fin p, .negZero => if Exact p then .fin p else .add a b
  | .fin p, .fin q => if Exact p ∧ Exact q ∧ Exact (p + q) then .fin (p + q) else .add a b
  | _, _ => .add a b

/-- The operator `a * b` on numbers; a zero product is `-0` when one factor is negative. -/
def jsMul (a b : JSNum) : JSNum :=
  match a, b with
  | .nan, _ => .nan
  | _, .nan => .nan
  | .fin p, .fin q =>
    if Exact p ∧ Exact q ∧ Exact (p * q) then
      if p * q = 0 ∧ (p < 0 ∨ q < 0) then .negZero else .fin (p * q)
    else .mul a b
  | _, _ => .mul a b

/-- The operator `a / b` on numbers; `+0` divided by a negative number is `-0`. -/
def jsDiv (a b : JSNum) : JSNum :=
  match a, b with
  | .nan, _ => .nan
  | _, .nan => .nan
  | .fin p, .fin q =>
    if Exact p ∧ Exact q ∧ q ≠ 0 ∧ Exact (p / q) then
      if p = 0 ∧ q < 0 then .negZero else .fin (p / q)
    else .div a b
  | _, _ => .div a b

/-- The call `parseInt(a)` on a number: the number is converted to its string
form, whose leading integer digits are read. `NaN` gives `NaN`, `-0` (string
`"0"`) gives `+0`, and a number with a plain decimal string form gives its
value rounded toward zero, `-0` when a negative number rounds to zero. -/
def jsParseIntNumber (a : JSNum) : JSNum :=
  match a with
  | .nan => .nan
  | .negZero => .fin 0
  | .fin q =>
    if Exact q then
      if 0 ≤ q then .fin ((⌊q⌋ : Int) : ℚ)
      else if ⌈q⌉ = 0 then .negZero
      else .fin ((⌈q⌉ : Int) : ℚ)
    else .intOf a
  | _ => .intOf a

/-- White space and line terminators, the code points `parseInt` skips at the
start of its argument: TAB, LF, VT, FF, CR, SP, NBSP, U+1680, U+2000 to U+200A,
U+2028, U+2029, U+202F, U+205F, U+3000, U+FEFF. -/
def isJSWhiteSpace (c : Char) : Bool :=
  decide (c.toNat ∈ [0x9, 0xA, 0xB, 0xC, 0xD, 0x20, 0xA0, 0x1680, 0x2028, 0x2029, 0x202F,
    0x205F, 0x3000, 0xFEFF]) || (decide (0x2000 ≤ c.toNat) && decide (c.toNat ≤ 0x200A))

/-- The value of a character as a digit: `0` to `9`, then `a` to `z` or `A` to
`Z` for 10 to 35. -/
def digitValue (c : Char) : Option Nat :=
  if 48 ≤ c.toNat ∧ c.toNat ≤ 57 then some (c.toNat - 48)
  else if 97 ≤ c.toNat ∧ c.toNat ≤ 122 then some (c.toNat - 87)
  else if 65 ≤ c.toNat ∧ c.toNat ≤ 90 then some (c.toNat - 55)
  else none

/-- The longest run of radix-`r` digits at the start of the text, as digit values. -/
def leadingDigits (r : Nat) : List Char → List Nat
  | [] => []
  | c :: t =>
    match digitValue c with
    | some d => if d < r then d :: leadingDigits r t else []
    | none => []

/-- The integer a sequence of radix-`r` digits denotes, most significant first. -/
def digitsValue (r : Nat) (ds : List Nat) : Nat :=
  ds.foldl (fun acc d => acc * r + d) 0

/-- An optional sign at the start of the text, `-` (code 45) or `+` (code 43):
whether it is `-`, and the text after it. -/
def stripSign (cs : List Char) : Bool × List Char :=
  match cs with
  | [] => (false, [])
  | c :: t =>
    if c.toNat = 45 then (true, t)
    else if c.toNat = 43 then (false, t)
    else (false, c :: t)

/-- The radix `parseInt` uses when none is given: 16 after a prefix `0x` or `0X`,
which is removed, and 10 otherwise. -/
def takeRadix (cs : List Char) : Nat × List Char :=
  match cs with
  | c1 :: c2 :: t =>
    if c1.toNat = 48 ∧ (c2.toNat = 120 ∨ c2.toNat = 88) then (16, t) else (10, c1 :: c2 :: t)
  | _ => (10, cs)

/-- The call `parseInt(s)` on a string: skip leading white space, take the
sign, take the radix from the prefix, read the longest run of digits. No digit
gives `NaN`; an integer above `2^53` is rounded to a double, which the model
does not evaluate. -/
def jsParseIntString (s : String) : JSNum :=
  let signed := stripSign (s.toList.dropWhile isJSWhiteSpace)
  let body := takeRadix signed.2
  let ds := leadingDigits body.1 body.2
  if ds = [] then .nan
  else if digitsValue body.1 ds = 0 then (if signed.1 then .negZero else .fin 0)
  else if digitsValue body.1 ds ≤ 2 ^ 53 then
    .fin (if signed.1 then -((digitsValue body.1 ds : Nat) : ℚ) else ((digitsValue body.1 ds : Nat) : ℚ))
  else .intOfString s

/-- A plain decimal numeral: an optional sign, digits, and optionally a point
followed by digits, with a digit on at least one side of the point. Returns
whether the sign is `-`, the integer the digits denote with the point removed,
and the number of digits after the point. -/
def parseDecimal (cs : List Char) : Option (Bool × Nat × Nat) :=
  let signed := stripSign cs
  let ip := leadingDigits 10 signed.2
  match signed.2.drop ip.length with
  | [] => if ip = [] then none else some (signed.1, digitsValue 10 ip, 0)
  | c :: rest =>
    if c.toNat = 46 then
      let fp := leadingDigits 10 rest
      if rest.drop fp.length = [] ∧ (ip ≠ [] ∨ fp ≠ []) then
        some (signed.1, digitsValue 10 (ip ++ fp), fp.length)
      else none
    else none

/-- The conversion of a string to a number, as applied by `*` and `/`. The
empty string is `+0`; a plain decimal numeral of at most 20 characters whose
value is exact is that value (`-0` for a negative zero). Every other string
(white space, exponent, hexadecimal, `Infinity`, text that is no number and
gives `NaN`, or a value that must be rounded) is not evaluated. -/
def jsToNumber (s : String) : JSNum :=
  if s.toList = [] then .fin 0
  else
    match parseDecimal s.toList with
    | none => .ofString s
    | some (neg, m, k) =>
      if s.length ≤ 20 ∧ Exact ((m : ℚ) / 10 ^ k) then
        if neg then (if m = 0 then .negZero else .fin (-((m : ℚ) / 10 ^ k)))
        else .fin ((m : ℚ) / 10 ^ k)
      else .ofString s

/-- An unsigned decimal integer numeral of at most 12 digits: the text is not
empty and consists of the characters `0` to `9` only. -/
def IsDecimalInteger (s : String) : Prop :=
  s.toList ≠ [] ∧ s.length ≤ 12 ∧ ∀ c ∈ s.toList, 48 ≤ c.toNat ∧ c.toNat ≤ 57

instance (s : String) : Decidable (IsDecimalInteger s) := by
  unfold IsDecimalInteger; infer_instance

/-! ## The grid materializer -/

/-- The `style` object of the shape template. -/
structure Style where
  shapeType : Nat
deriving DecidableEq, Repr

/-- An entry of `objectTypes`, by the properties it can hold; `none` is a
property the object does not have. -/
structure Template where
  type : String
  style : Option Style
  scale : Option JSNum
  width : Option JSNum
  height : Option JSNum
deriving DecidableEq

/-- The module-level table `objectTypes` with its two entries. -/
structure ObjectTypes where
  shape : Template
  sticker : Template
deriving DecidableEq

/-- The table as the program is loaded. -/
def objectTypes : ObjectTypes :=
  ⟨⟨"shape", some ⟨3⟩, none, none, none⟩, ⟨"sticker", none, none, none, none⟩⟩

/-- The values `createGrid` reads from the page, all of them strings: the
`data-value` of the selected type, the `value` of `.js-margin` and of
`.js-size`, and the `value` of the checked content option. -/
structure FormValues where
  widgetType : String
  margin : String
  itemSize : String
  contentType : String
deriving DecidableEq

/-- A widget descriptor: the object literal with `x`, `y`, `text`, onto which
`Object.assign` copies the properties of the template. -/
structure Descriptor where
  x : JSNum
  y : JSNum
  text : String
  type : Option String
  style : Option Style
  scale : Option JSNum
  width : Option JSNum
  height : Option JSNum
deriving DecidableEq

/-- The statements "choose the correct object type" and "prepare the values for
the right widget type" of `createGrid`: `object = objectTypes[widgetType]`,
then the `switch` that writes `scale` (sticker) or `width` and `height` (shape)
into that same object. Returns the table after the writes and `object`; for any
other key `object` has no property that `Object.assign` would copy. -/
def prepareObject (ot : ObjectTypes) (form : FormValues) : ObjectTypes × Option Template :=
  if form.widgetType = "sticker" then
    let t : Template :=
      { ot.sticker with scale := some (jsDiv (jsToNumber form.itemSize) (.fin 200)) }
    ({ ot with sticker := t }, some t)
  else if form.widgetType = "shape" then
    let t : Template :=
      { ot.shape with
        width := some (jsParseIntString form.itemSize)
        height := some (jsParseIntString form.itemSize) }
    ({ ot with shape := t }, some t)
  else (ot, none)

/-- The function `prepareContent`. -/
def prepareContent (type : String) (widgetNumber : Nat) : String :=
  if type = "numbers" then toString widgetNumber else ""

/-- The call `Object.assign(target, object)` with `target` the literal holding `x`, `y`, `text`. -/
def assignObject (x y : JSNum) (text : String) (object : Option Template) : Descriptor :=
  match object with
  | none => ⟨x, y, text, none, none, none, none, none⟩
  | some t => ⟨x, y, text, some t.type, t.style, t.scale, t.width, t.height⟩

/-- The descriptor pushed for the selected cell `(x, y)` when the counter has
just been incremented to `itemCount`: its `x` is
`parseInt(baseX + (x * itemSize) + (x * margin))`, the products converting the
field strings to numbers, and likewise its `y`. -/
def newWidget (baseX baseY : JSNum) (form : FormValues) (object : Option Template)
    (x y itemCount : Nat) : Descriptor :=
  assignObject
    (jsParseIntNumber
      (jsAdd (jsAdd baseX (jsMul (.fin (x : ℚ)) (jsToNumber form.itemSize)))
        (jsMul (.fin (x : ℚ)) (jsToNumber form.margin))))
    (jsParseIntNumber
      (jsAdd (jsAdd baseY (jsMul (.fin (y : ℚ)) (jsToNumber form.itemSize)))
        (jsMul (.fin (y : ℚ)) (jsToNumber form.margin))))
    (prepareContent form.contentType itemCount)
    object

/-- The local variables of the loop of `createGrid`. -/
structure BuildState where
  itemCount : Nat
  widgets : List Descriptor
deriving DecidableEq

/-- The loop of `createGrid`: for `y`, for `x`, when `shadowGrid[x][y] == true`
increment the counter and push the descriptor of the cell. -/
def collectWidgets (ps : PreviewSettings) (g : Grid) (baseX baseY : JSNum) (form : FormValues)
    (object : Option Template) : BuildState × Option JSError :=
  forRange ps.elementsCount
    (fun y st => forRange ps.elementsCount
      (fun x st =>
        match readCell g x y with
        | .error e => (st, some e)
        | .ok v =>
          if looseEqTrue v then
            (⟨st.itemCount + 1,
              st.widgets ++ [newWidget baseX baseY form object x y (st.itemCount + 1)]⟩, none)
          else (st, none))
      st)
    ⟨0, []⟩

/-- The module-level mutable state. -/
structure AppState where
  objectTypes : ObjectTypes
  shadowGrid : Grid
deriving DecidableEq

/-- The part of `createGrid` before the host is called: the table after the
template has been written, and the loop's final counter and batch. -/
def buildWidgets (ps : PreviewSettings) (app : AppState) (baseX baseY : JSNum) (form : FormValues) :
    ObjectTypes × BuildState × Option JSError :=
  let p := prepareObject app.objectTypes form
  (p.1, collectWidgets ps app.shadowGrid baseX baseY form p.2)

/-- The host as two fallible operations on a host state `σ`:
`miro.board.widgets.create` and `miro.board.selection.selectWidgets`. A
rejected promise is `.error`. -/
structure Host (σ ω ε : Type) where
  create : List Descriptor → σ → Except ε ω × σ
  selectWidgets : ω → σ → Except ε Unit × σ

/-- A call made to the host, with its argument. -/
inductive HostCall (ω : Type) where
  | create (widgets : List Descriptor)
  | selectWidgets (created : ω)

/-- Why the promise of `createGrid` is rejected: an exception of the function's
own code, or the rejection of a host call. -/
inductive Failure (ε : Type) where
  | thrown (e : JSError)
  | rejected (e : ε)

/-- What a call of `createGrid` leaves behind: the module state, the host
state, the host calls made in order, and how the promise settles. -/
structure CreateOutcome (σ ω ε : Type) where
  app : AppState
  host : σ
  calls : List (HostCall ω)
  result : Except (Failure ε) Unit

/-- The function `createGrid`: build the batch, `await` the creation call, then
`await` the selection call on what the creation returned. -/
def createGrid {σ ω ε : Type} (ps : PreviewSettings) (host : Host σ ω ε) (baseX baseY : JSNum)
    (form : FormValues) (app : AppState) (h : σ) : CreateOutcome σ ω ε :=
  let b := buildWidgets ps app baseX baseY form
  let app1 : AppState := ⟨b.1, app.shadowGrid⟩
  match b.2.2 with
  | some e => ⟨app1, h, [], .error (.thrown e)⟩
  | none =>
    match host.create b.2.1.widgets h with
    | (.error e, h1) => ⟨app1, h1, [.create b.2.1.widgets], .error (.rejected e)⟩
    | (.ok created, h1) =>
      match host.selectWidgets created h1 with
      | (.error e, h2) =>
        ⟨app1, h2, [.create b.2.1.widgets, .selectWidgets created], .error (.rejected e)⟩
      | (.ok _, h2) =>
        ⟨app1, h2, [.create b.2.1.widgets, .selectWidgets created], .ok ()⟩

/-- One earlier use of `createGrid`: the selection grid at that moment, the
base coordinate and the values on the page. -/
structure CreateCall where
  shadowGrid : Grid
  baseX : JSNum
  baseY : JSNum
  form : FormValues

/-- The table `objectTypes` and the host state after a sequence of `createGrid` calls. -/
def afterCalls {σ ω ε : Type} (ps : PreviewSettings) (host : Host σ ω ε) :
    List CreateCall → ObjectTypes × σ → ObjectTypes × σ
  | [], s => s
  | c :: cs, s =>
    let o := createGrid ps host c.baseX c.baseY c.form ⟨s.1, c.shadowGrid⟩ s.2
    afterCalls ps host cs (o.app.objectTypes, o.host)

/-- What every table reachable from the initial one satisfies: the properties
`createGrid` never writes are as at load time. -/
def TemplatesIntact (ot : ObjectTypes) : Prop :=
  ot.shape.type = "shape" ∧ ot.shape.style = some ⟨3⟩ ∧ ot.shape.scale = none ∧
  ot.sticker.type = "sticker" ∧ ot.sticker.style = none ∧
  ot.sticker.width = none ∧ ot.sticker.height = none

/-! ## Row-major order of the selected cells -/

/-- The cells of an `n x n` grid in row-major order: `y` ascending, and for
each `y`, `x` ascending. -/
def rowMajorCells (n : Nat) : List (Nat × Nat) :=
  (List.range n).flatMap (fun y => (List.range n).map (fun x => (x, y)))

/-- The selected cells, those holding `true`, in row-major order. -/
def selectedCells (n : Nat) (g : Grid) : List (Nat × Nat) :=
  (rowMajorCells n).filter (fun p => decide (cellAt g p.1 p.2 = some true))

/-- The descriptors of a list of cells, the first one numbered `c + 1`. -/
def numbered (mk : Nat → Nat → Nat → Descriptor) (c : Nat) : List (Nat × Nat) → List Descriptor
  | [] => []
  | p :: rest => mk p.1 p.2 (c + 1) :: numbered mk (c + 1) rest

/-! ## Sample grids -/

/-- The grid as `initShadowGrid` leaves it under `previewSettings`. -/
def emptyGrid : Grid :=
  List.replicate 12 (List.replicate 12 (some false))

/-- A 12 x 12 grid with the cells `(0, 0)`, `(1, 0)`, `(2, 0)` selected. -/
def threeCellGrid : Grid :=
  List.replicate 3 (some true :: List.replicate 11 (some false))
    ++ List.replicate 9 (List.replicate 12 (some false))

/-- A 12 x 12 grid with the single cell `(2, 1)` selected. -/
def cell21Grid : Grid :=
  List.replicate 2 (List.replicate 12 (some false))
    ++ [[some false, some true] ++ List.replicate 10 (some false)]
    ++ List.replicate 9 (List.replicate 12 (some false))

/-! ## A sample host -/

/-- A host that accepts every call: its state counts the calls made, and
creation returns the number of widgets created. -/
def acceptingHost : Host Nat Nat String :=
  ⟨fun widgets s => (.ok widgets.length, s + 1), fun _ s => (.ok (), s + 1)⟩

/-! ## Loop rules -/

theorem forRange_zero {σ : Type} (body : Nat → σ → σ × Option JSError) (s : σ) :
    forRange 0 body s = (s, none) := by
  simp [forRange]

theorem forRange_succ {σ : Type} (n : Nat) (body : Nat → σ → σ × Option JSError) (s : σ) :
    forRange (n + 1) body s =
      match (forRange n body s).2 with
      | none => body n (forRange n body s).1
      | some _ => forRange n body s := by
  simp [forRange, List.range_succ, List.foldl_append]

/-- Invariant rule: if every iteration keeps the invariant without throwing,
the loop ends without throwing in a state satisfying the invariant. -/
theorem forRange_inv {σ : Type} (n : Nat) (body : Nat → σ → σ × Option JSError) (s : σ)
    (Inv : Nat → σ → Prop) (h0 : Inv 0 s)
    (hstep : ∀ k, k < n → ∀ t, Inv k t → (body k t).2 = none ∧ Inv (k + 1) (body k t).1) :
    (forRange n body s).2 = none ∧ Inv n (forRange n body s).1 := by
  induction n with
  | zero => simpa [forRange_zero] using h0
  | succ m ih =>
    have hm := ih (fun k hk t ht => hstep k (Nat.lt_succ_of_lt hk) t ht)
    rw [forRange_succ, hm.1]
    exact hstep m (Nat.lt_succ_self m) _ hm.2

/-! ## Reading and writing cells -/

theorem arrayGet_natCast {α : Type} (a : List α) (i : Nat) : arrayGet a (i : Int) = a[i]? := by
  simp [arrayGet]

theorem cellSet_natCast_lt (col : Column) (j : Nat) (v : Cell) (h : j < col.length) :
    cellSet col (j : Int) v = col.set j v := by
  have h0 : ¬ ((j : Int) < 0) := by omega
  simp [cellSet, h0, h]

theorem cellAt_of_getElem? (g : Grid) (i j : Nat) (col : Column) (h : g[i]? = some col) :
    cellAt g i j = (col[j]?).join := by
  simp [cellAt, h]

theorem readCell_natCast (g : Grid) (x y : Nat) (hx : x < g.length) :
    readCell g (x : Int) (y : Int) = .ok (cellAt g x y) := by
  have hg : g[x]? = some g[x] := List.getElem?_eq_getElem hx
  simp [readCell, arrayGet_natCast, hg, cellAt, cellGet]

theorem isSquare_set (n : Nat) (g : Grid) (x : Nat) (col : Column)
    (hg : IsSquare n g) (hcol : col.length = n) : IsSquare n (g.set x col) := by
  refine ⟨by simpa using hg.1, ?_⟩
  intro c hc
  rcases List.mem_or_eq_of_mem_set hc with h | h
  · exact hg.2 c h
  · exact h ▸ hcol

theorem cellAt_set (g : Grid) (x : Nat) (col : Column) (i j : Nat) (hx : x < g.length) :
    cellAt (g.set x col) i j = if i = x then (col[j]?).join else cellAt g i j := by
  by_cases hix : i = x
  · subst hix
    simp [cellAt, List.getElem?_set, hx]
  · have hne : x ≠ i := fun h => hix h.symm
    simp [cellAt, List.getElem?_set_ne hne, hix]

theorem getElem?_join_set (col : Column) (y j : Nat) (v : Cell) (hy : y < col.length) :
    ((col.set y v)[j]?).join = if j = y then v else (col[j]?).join := by
  by_cases hjy : j = y
  · subst hjy
    simp [List.getElem?_set, hy]
  · have hne : y ≠ j := fun h => hjy h.symm
    simp [List.getElem?_set_ne hne, hjy]

/-- Writing a cell inside a square grid: no exception, the shape is kept and
exactly the written cell changes. -/
theorem writeCell_square (n : Nat) (g : Grid) (x y : Nat) (v : Bool)
    (hg : IsSquare n g) (hx : x < n) (hy : y < n) :
    (writeCell g (x : Int) (y : Int) v).2 = none ∧
    IsSquare n (writeCell g (x : Int) (y : Int) v).1 ∧
    ∀ i j, cellAt (writeCell g (x : Int) (y : Int) v).1 i j =
      if i = x ∧ j = y then some v else cellAt g i j := by
  have hxl : x < g.length := by rw [hg.1]; exact hx
  have hgx : g[x]? = some g[x] := List.getElem?_eq_getElem hxl
  have hcl : (g[x]).length = n := hg.2 _ (List.getElem_mem hxl)
  have hyl : y < (g[x]).length := by rw [hcl]; exact hy
  have hw : writeCell g (x : Int) (y : Int) v = (g.set x ((g[x]).set y (some v)), none) := by
    simp [writeCell, arrayGet_natCast, hgx, cellSet_natCast_lt _ _ _ hyl]
  rw [hw]
  refine ⟨rfl, isSquare_set n g x _ hg (by simpa using hcl), ?_⟩
  intro i j
  show cellAt (g.set x ((g[x]).set y (some v))) i j = _
  rw [cellAt_set g x _ i j hxl, getElem?_join_set _ y j _ hyl]
  by_cases hix : i = x
  · subst hix
    by_cases hjy : j = y
    · simp [hjy]
    · simp [hjy, cellAt, hgx]
  · simp [hix]

/-- Two square grids with the same cells are the same grid. -/
theorem grid_ext (n : Nat) (g h : Grid) (hg : IsSquare n g) (hh : IsSquare n h)
    (hc : ∀ i j, i < n → j < n → cellAt g i j = cellAt h i j) : g = h := by
  apply List.ext_getElem?
  intro i
  by_cases hi : i < n
  · have hgi : i < g.length := by rw [hg.1]; exact hi
    have hhi : i < h.length := by rw [hh.1]; exact hi
    rw [List.getElem?_eq_getElem hgi, List.getElem?_eq_getElem hhi]
    congr 1
    apply List.ext_getElem?
    intro j
    have hgl : (g[i]).length = n := hg.2 _ (List.getElem_mem hgi)
    have hhl : (h[i]).length = n := hh.2 _ (List.getElem_mem hhi)
    by_cases hj : j < n
    · have e := hc i j hi hj
      rw [cellAt_of_getElem? g i j _ (List.getElem?_eq_getElem hgi),
        cellAt_of_getElem? h i j _ (List.getElem?_eq_getElem hhi)] at e
      have hgj : j < (g[i]).length := by rw [hgl]; exact hj
      have hhj : j < (h[i]).length := by rw [hhl]; exact hj
      rw [List.getElem?_eq_getElem hgj, List.getElem?_eq_getElem hhj] at e ⊢
      simpa using e
    · rw [List.getElem?_eq_none (by omega), List.getElem?_eq_none (by omega)]
  · rw [List.getElem?_eq_none (by rw [hg.1]; omega), List.getElem?_eq_none (by rw [hh.1]; omega)]

/-! ## Rectangle fill -/

/-- One row of the fill: the inner loop at row `y` writes every cell of that
row and no other. -/
theorem fill_row (n : Nat) (g : Grid) (y : Nat) (val : Nat → Bool)
    (hg : IsSquare n g) (hy : y < n) :
    (forRange n (fun x t => writeCell t (x : Int) (y : Int) (val x)) g).2 = none ∧
    IsSquare n (forRange n (fun x t => writeCell t (x : Int) (y : Int) (val x)) g).1 ∧
    ∀ i j, cellAt (forRange n (fun x t => writeCell t (x : Int) (y : Int) (val x)) g).1 i j =
      if i < n ∧ j = y then some (val i) else cellAt g i j := by
  have h := forRange_inv n (fun x t => writeCell t (x : Int) (y : Int) (val x)) g
    (fun k t => IsSquare n t ∧
      ∀ i j, cellAt t i j = if i < k ∧ j = y then some (val i) else cellAt g i j)
    ⟨hg, by intro i j; simp⟩
    (by
      intro k hk t ht
      obtain ⟨w1, w2, w3⟩ := writeCell_square n t k y (val k) ht.1 hk hy
      refine ⟨w1, w2, ?_⟩
      intro i j
      rw [w3 i j, ht.2 i j]
      by_cases hik : i = k
      · subst hik
        by_cases hjy : j = y
        · simp [hjy]
        · simp [hjy]
      · by_cases hlt : i < k
        · have : i < k + 1 := by omega
          simp [hik, hlt, this]
        · have : ¬ i < k + 1 := by omega
          simp [hik, hlt, this])
  exact ⟨h.1, h.2.1, h.2.2⟩

/-- The whole fill on a square grid: no exception, the shape is kept, and
every cell holds the value computed for it. -/
theorem fill_all (n : Nat) (g : Grid) (val : Nat → Nat → Bool) (hg : IsSquare n g) :
    (forRange n (fun y t => forRange n
        (fun x t => writeCell t (x : Int) (y : Int) (val x y)) t) g).2 = none ∧
    IsSquare n (forRange n (fun y t => forRange n
        (fun x t => writeCell t (x : Int) (y : Int) (val x y)) t) g).1 ∧
    ∀ i j, i < n → j < n →
      cellAt (forRange n (fun y t => forRange n
        (fun x t => writeCell t (x : Int) (y : Int) (val x y)) t) g).1 i j = some (val i j) := by
  have h := forRange_inv n
    (fun y t => forRange n (fun x t => writeCell t (x : Int) (y : Int) (val x y)) t) g
    (fun k t => IsSquare n t ∧
      ∀ i j, cellAt t i j = if i < n ∧ j < k then some (val i j) else cellAt g i j)
    ⟨hg, by intro i j; simp⟩
    (by
      intro k hk t ht
      obtain ⟨r1, r2, r3⟩ := fill_row n t k (fun x => val x k) ht.1 hk
      refine ⟨r1, r2, ?_⟩
      intro i j
      rw [r3 i j, ht.2 i j]
      by_cases hin : i < n
      · by_cases hjk : j = k
        · subst hjk
          simp [hin]
        · by_cases hlt : j < k
          · have : j < k + 1 := by omega
            simp [hin, hjk, hlt, this]
          · have : ¬ j < k + 1 := by omega
            simp [hin, hjk, hlt, this]
      · simp [hin])
  refine ⟨h.1, h.2.1, ?_⟩
  intro i j hi hj
  rw [h.2.2 i j]
  simp [hi, hj]

theorem toggleRectSelected_shadowGrid (ps : PreviewSettings) (canvas : Canvas) (e : ClickEvent)
    (g : Grid) :
    (toggleRectSelected ps canvas e g).shadowGrid =
      (if e.shiftKey then toggleCell g (clickedX ps e) (clickedY ps e)
       else fillRectangleFromOrigin ps g (clickedX ps e) (clickedY ps e)).1 := by
  simp only [toggleRectSelected]
  split <;> rfl

/-- C1. Rectangle fill (the non-shift branch of `toggleRectSelected`): on every
`N x N` grid and for every pair of integer clicked coordinates the fill
finishes without an exception, the grid is still `N x N`, every cell at column
`i`, row `j` is `true` when `i <= clickedX` and `j <= clickedY` and `false`
otherwise, and the resulting grid is the same for every prior `N x N` state. A
click without shift leaves exactly this grid. -/
theorem fillRectangleFromOrigin_spec (ps : PreviewSettings) (g : Grid) (cx cy : Int)
    (hg : IsSquare ps.elementsCount g) :
    (fillRectangleFromOrigin ps g cx cy).2 = none ∧
    IsSquare ps.elementsCount (fillRectangleFromOrigin ps g cx cy).1 ∧
    (∀ i j, i < ps.elementsCount → j < ps.elementsCount →
      cellAt (fillRectangleFromOrigin ps g cx cy).1 i j
        = some (decide ((i : Int) ≤ cx ∧ (j : Int) ≤ cy))) ∧
    (∀ g2, IsSquare ps.elementsCount g2 →
      (fillRectangleFromOrigin ps g2 cx cy).1 = (fillRectangleFromOrigin ps g cx cy).1) ∧
    (∀ (canvas : Canvas) (e : ClickEvent), e.shiftKey = false →
      (toggleRectSelected ps canvas e g).shadowGrid
        = (fillRectangleFromOrigin ps g (clickedX ps e) (clickedY ps e)).1) := by
  have key : ∀ h : Grid, IsSquare ps.elementsCount h →
      (fillRectangleFromOrigin ps h cx cy).2 = none ∧
      IsSquare ps.elementsCount (fillRectangleFromOrigin ps h cx cy).1 ∧
      (∀ i j, i < ps.elementsCount → j < ps.elementsCount →
        cellAt (fillRectangleFromOrigin ps h cx cy).1 i j
          = some (decide ((i : Int) ≤ cx ∧ (j : Int) ≤ cy))) := by
    intro h hh
    obtain ⟨a, b, c⟩ := fill_all ps.elementsCount h
      (fun x y => decide ((x : Int) ≤ cx) && decide ((y : Int) ≤ cy)) hh
    refine ⟨a, b, ?_⟩
    intro i j hi hj
    have := c i j hi hj
    simp only [fillRectangleFromOrigin]
    rw [this]
    simp [Bool.decide_and]
  obtain ⟨a, b, c⟩ := key g hg
  refine ⟨a, b, c, ?_, ?_⟩
  · intro g2 hg2
    obtain ⟨_, b2, c2⟩ := key g2 hg2
    apply grid_ext ps.elementsCount _ _ b2 b
    intro i j hi hj
    rw [c i j hi hj, c2 i j hi hj]
  · intro canvas e hs
    rw [toggleRectSelected_shadowGrid, hs]
    simp

/-! ## Single-cell toggle -/

/-- C2. Single-cell toggle (the shift branch of `toggleRectSelected`): on every
`N x N` grid and for every `(x, y)` with `0 <= x, y < N` the toggle finishes
without an exception, the grid is still `N x N`, the cell `(x, y)` holds the
negation of its previous value, and every other cell holds its previous value.
A click with shift leaves exactly this grid. -/
theorem toggleCell_spec (n : Nat) (g : Grid) (x y : Nat)
    (hg : IsSquare n g) (hx : x < n) (hy : y < n) :
    (toggleCell g (x : Int) (y : Int)).2 = none ∧
    IsSquare n (toggleCell g (x : Int) (y : Int)).1 ∧
    cellAt (toggleCell g (x : Int) (y : Int)).1 x y = some (jsNot (cellAt g x y)) ∧
    (∀ b : Bool, cellAt g x y = some b →
      cellAt (toggleCell g (x : Int) (y : Int)).1 x y = some (!b)) ∧
    (∀ i j, ¬ (i = x ∧ j = y) →
      cellAt (toggleCell g (x : Int) (y : Int)).1 i j = cellAt g i j) ∧
    (∀ (ps : PreviewSettings) (canvas : Canvas) (e : ClickEvent), e.shiftKey = true →
      (toggleRectSelected ps canvas e g).shadowGrid
        = (toggleCell g (clickedX ps e) (clickedY ps e)).1) := by
  have hxl : x < g.length := by rw [hg.1]; exact hx
  have ht : toggleCell g (x : Int) (y : Int)
      = writeCell g (x : Int) (y : Int) (jsNot (cellAt g x y)) := by
    simp [toggleCell, readCell_natCast g x y hxl]
  obtain ⟨w1, w2, w3⟩ := writeCell_square n g x y (jsNot (cellAt g x y)) hg hx hy
  rw [ht]
  refine ⟨w1, w2, ?_, ?_, ?_, ?_⟩
  · rw [w3 x y]; simp
  · intro b hb
    rw [w3 x y, hb]; simp [jsNot]
  · intro i j hij
    rw [w3 i j]; simp [hij]
  · intro ps canvas e hs
    rw [toggleRectSelected_shadowGrid, hs]
    simp

/-! ## Numbering the selected cells -/

theorem looseEqTrue_eq (v : Cell) : looseEqTrue v = decide (v = some true) := by
  cases v with
  | none => rfl
  | some b => cases b <;> rfl

theorem numbered_append (mk : Nat → Nat → Nat → Descriptor) (c : Nat) (l1 l2 : List (Nat × Nat)) :
    numbered mk c (l1 ++ l2) = numbered mk c l1 ++ numbered mk (c + l1.length) l2 := by
  induction l1 generalizing c with
  | nil => simp [numbered]
  | cons p rest ih =>
    have e : c + 1 + rest.length = c + (rest.length + 1) := by omega
    show mk p.1 p.2 (c + 1) :: numbered mk (c + 1) (rest ++ l2) = _
    rw [ih (c + 1), e]
    simp [numbered]

theorem numbered_length (mk : Nat → Nat → Nat → Descriptor) (c : Nat) (l : List (Nat × Nat)) :
    (numbered mk c l).length = l.length := by
  induction l generalizing c with
  | nil => rfl
  | cons p rest ih => simp [numbered, ih]

theorem numbered_getElem? (mk : Nat → Nat → Nat → Descriptor) (c : Nat) (l : List (Nat × Nat))
    (i : Nat) :
    (numbered mk c l)[i]? = (l[i]?).map (fun p => mk p.1 p.2 (c + i + 1)) := by
  induction l generalizing c i with
  | nil => simp [numbered]
  | cons p rest ih =>
    cases i with
    | zero => simp [numbered]
    | succ k =>
      have e : c + 1 + k + 1 = c + (k + 1) + 1 := by omega
      simp only [numbered, List.getElem?_cons_succ, ih, e]

theorem rowMajorCells_succ_aux (n k : Nat) :
    (List.range (k + 1)).flatMap (fun y => (List.range n).map (fun x => (x, y)))
      = (List.range k).flatMap (fun y => (List.range n).map (fun x => (x, y)))
        ++ (List.range n).map (fun x => (x, k)) := by
  simp [List.range_succ, List.flatMap_append]

/-! ## The loop of the materializer -/

/-- The inner loop of `createGrid` at row `y`: the selected cells of the row
are appended in ascending `x`, numbered from the counter on. -/
theorem collect_row (n : Nat) (g : Grid) (baseX baseY : JSNum) (form : FormValues)
    (object : Option Template) (y : Nat) (st0 : BuildState) (hn : n ≤ g.length) :
    forRange n
      (fun x st =>
        match readCell g x y with
        | .error e => (st, some e)
        | .ok v =>
          if looseEqTrue v then
            (⟨st.itemCount + 1,
              st.widgets ++ [newWidget baseX baseY form object x y (st.itemCount + 1)]⟩, none)
          else (st, none))
      st0
    = (⟨st0.itemCount
          + (((List.range n).map (fun x => (x, y))).filter
              (fun p => decide (cellAt g p.1 p.2 = some true))).length,
        st0.widgets ++ numbered (newWidget baseX baseY form object) st0.itemCount
          (((List.range n).map (fun x => (x, y))).filter
              (fun p => decide (cellAt g p.1 p.2 = some true)))⟩, none) := by
  have h := forRange_inv n
    (fun x st =>
        match readCell g x y with
        | .error e => (st, some e)
        | .ok v =>
          if looseEqTrue v then
            (⟨st.itemCount + 1,
              st.widgets ++ [newWidget baseX baseY form object x y (st.itemCount + 1)]⟩, none)
          else (st, none))
    st0
    (fun k st => k ≤ n ∧ st = ⟨st0.itemCount
          + (((List.range k).map (fun x => (x, y))).filter
              (fun p => decide (cellAt g p.1 p.2 = some true))).length,
        st0.widgets ++ numbered (newWidget baseX baseY form object) st0.itemCount
          (((List.range k).map (fun x => (x, y))).filter
              (fun p => decide (cellAt g p.1 p.2 = some true)))⟩)
    ⟨Nat.zero_le n, by simp [numbered]⟩
    (by
      intro k hk t ht
      have hr : readCell g (k : Int) (y : Int) = .ok (cellAt g k y) :=
        readCell_natCast g k y (by omega)
      simp only [hr, looseEqTrue_eq]
      rw [ht.2]
      by_cases hsel : cellAt g k y = some true
      · simp [hsel, List.range_succ, List.filter_append, numbered_append, numbered,
          Nat.add_assoc]
        omega
      · simp [hsel, List.range_succ, List.filter_append]
        omega)
  exact Prod.ext h.2.2 h.1

/-- The loop of `createGrid` on a grid with all its columns: no exception, the
counter ends at the number of selected cells, and the batch holds their
descriptors in row-major order, numbered from 1. -/
theorem collectWidgets_eq (ps : PreviewSettings) (g : Grid) (baseX baseY : JSNum) (form : FormValues)
    (object : Option Template) (hn : ps.elementsCount ≤ g.length) :
    collectWidgets ps g baseX baseY form object
      = (⟨(selectedCells ps.elementsCount g).length,
          numbered (newWidget baseX baseY form object) 0 (selectedCells ps.elementsCount g)⟩,
         none) := by
  have h := forRange_inv ps.elementsCount
    (fun y st => forRange ps.elementsCount
      (fun x st =>
        match readCell g x y with
        | .error e => (st, some e)
        | .ok v =>
          if looseEqTrue v then
            (⟨st.itemCount + 1,
              st.widgets ++ [newWidget baseX baseY form object x y (st.itemCount + 1)]⟩, none)
          else (st, none))
      st)
    (⟨0, []⟩ : BuildState)
    (fun k st => st = ⟨
        (((List.range k).flatMap (fun y => (List.range ps.elementsCount).map (fun x => (x, y)))).filter
              (fun p => decide (cellAt g p.1 p.2 = some true))).length,
        numbered (newWidget baseX baseY form object) 0
          (((List.range k).flatMap (fun y => (List.range ps.elementsCount).map (fun x => (x, y)))).filter
              (fun p => decide (cellAt g p.1 p.2 = some true)))⟩)
    (by simp [numbered])
    (by
      intro k _ t ht
      beta_reduce
      rw [collect_row ps.elementsCount g baseX baseY form object k t hn, ht]
      refine ⟨rfl, ?_⟩
      simp only [rowMajorCells_succ_aux, List.filter_append, List.length_append, numbered_append,
        Nat.zero_add])
  exact Prod.ext h.2 h.1

theorem buildWidgets_eq (ps : PreviewSettings) (app : AppState) (baseX baseY : JSNum)
    (form : FormValues) (hn : ps.elementsCount ≤ app.shadowGrid.length) :
    buildWidgets ps app baseX baseY form
      = ((prepareObject app.objectTypes form).1,
         ⟨(selectedCells ps.elementsCount app.shadowGrid).length,
          numbered (newWidget baseX baseY form (prepareObject app.objectTypes form).2) 0
            (selectedCells ps.elementsCount app.shadowGrid)⟩,
         none) := by
  simp only [buildWidgets, collectWidgets_eq ps app.shadowGrid baseX baseY form _ hn]

theorem mem_rowMajorCells (n x y : Nat) : (x, y) ∈ rowMajorCells n ↔ x < n ∧ y < n := by
  simp only [rowMajorCells, List.mem_flatMap, List.mem_map, List.mem_range, Prod.mk.injEq]
  constructor
  · rintro ⟨a, ha, b, hb, rfl, rfl⟩
    exact ⟨hb, ha⟩
  · rintro ⟨hx, hy⟩
    exact ⟨y, hy, x, hx, rfl, rfl⟩

theorem mem_selectedCells (n : Nat) (g : Grid) (x y : Nat) :
    (x, y) ∈ selectedCells n g ↔ x < n ∧ y < n ∧ cellAt g x y = some true := by
  simp [selectedCells, List.mem_filter, mem_rowMajorCells, and_assoc]

theorem mem_numbered (mk : Nat → Nat → Nat → Descriptor) (c : Nat) (l : List (Nat × Nat))
    (d : Descriptor) (h : d ∈ numbered mk c l) : ∃ p ∈ l, ∃ k, d = mk p.1 p.2 k := by
  induction l generalizing c with
  | nil => simp [numbered] at h
  | cons q rest ih =>
    simp only [numbered, List.mem_cons] at h
    rcases h with h | h
    · exact ⟨q, List.mem_cons_self _ _, c + 1, h⟩
    · obtain ⟨p, hp, k, hk⟩ := ih (c + 1) h
      exact ⟨p, List.mem_cons_of_mem _ hp, k, hk⟩

theorem parseIntNum_intCast (z : Int) : parseIntNum (z : ℚ) = z := by
  unfold parseIntNum
  split <;> simp

theorem newWidget_text (baseX baseY : JSNum) (form : FormValues) (object : Option Template)
    (x y k : Nat) :
    (newWidget baseX baseY form object x y k).text = prepareContent form.contentType k := by
  cases object <;> rfl

theorem numbered_text (baseX baseY : JSNum) (form : FormValues) (object : Option Template)
    (c : Nat) (l : List (Nat × Nat)) :
    (numbered (newWidget baseX baseY form object) c l).map (fun d => d.text)
      = (List.range l.length).map (fun i => prepareContent form.contentType (c + i + 1)) := by
  induction l generalizing c with
  | nil => simp [numbered]
  | cons p rest ih =>
    simp only [numbered, List.map_cons, ih, List.length_cons, List.range_succ_eq_map,
      List.map_map, newWidget_text]
    congr 1
    apply List.map_congr_left
    intro i _
    simp only [Function.comp]
    congr 1
    omega

theorem rowMajorCells_pairwise (n : Nat) :
    (rowMajorCells n).Pairwise (fun p q => p.2 < q.2 ∨ (p.2 = q.2 ∧ p.1 < q.1)) := by
  unfold rowMajorCells
  rw [List.pairwise_flatMap]
  constructor
  · intro y _
    rw [List.pairwise_map]
    exact (List.pairwise_lt_range n).imp (fun h => Or.inr ⟨rfl, h⟩)
  · refine (List.pairwise_lt_range n).imp ?_
    intro a b hab p hp q hq
    simp only [List.mem_map] at hp hq
    obtain ⟨_, _, rfl⟩ := hp
    obtain ⟨_, _, rfl⟩ := hq
    exact Or.inl hab

/-! ## The batch built by `createGrid` -/

/-- C3. `createGrid` on an `N x N` grid with `K` selected cells: the loop ends
without an exception with the counter at `K`, the batch has exactly `K`
descriptors, and the descriptor at position `i` (counted from 0) is the one
built for the `i`-th selected cell in row-major order with counter value
`i + 1`. The selected cells listed are exactly the cells holding `true`, each
once, in strictly ascending row-major order (`y` first, then `x`), so an
unselected cell has no descriptor. -/
theorem createGrid_batch_order (ps : PreviewSettings) (app : AppState) (baseX baseY : JSNum)
    (form : FormValues) (hg : IsSquare ps.elementsCount app.shadowGrid) :
    (buildWidgets ps app baseX baseY form).2.2 = none ∧
    (buildWidgets ps app baseX baseY form).2.1.itemCount
      = (selectedCells ps.elementsCount app.shadowGrid).length ∧
    (buildWidgets ps app baseX baseY form).2.1.widgets.length
      = (selectedCells ps.elementsCount app.shadowGrid).length ∧
    (∀ i x y, (selectedCells ps.elementsCount app.shadowGrid)[i]? = some (x, y) →
      (buildWidgets ps app baseX baseY form).2.1.widgets[i]?
        = some (newWidget baseX baseY form (prepareObject app.objectTypes form).2 x y (i + 1))) ∧
    (∀ x y, (x, y) ∈ selectedCells ps.elementsCount app.shadowGrid ↔
      x < ps.elementsCount ∧ y < ps.elementsCount ∧ cellAt app.shadowGrid x y = some true) ∧
    (selectedCells ps.elementsCount app.shadowGrid).Pairwise
      (fun p q => p.2 < q.2 ∨ (p.2 = q.2 ∧ p.1 < q.1)) := by
  rw [buildWidgets_eq ps app baseX baseY form (le_of_eq hg.1.symm)]
  refine ⟨rfl, rfl, numbered_length _ _ _, ?_, mem_selectedCells _ _, ?_⟩
  · intro i x y h
    show (numbered _ 0 _)[i]? = _
    rw [numbered_getElem?, h]
    simp
  · exact (rowMajorCells_pairwise ps.elementsCount).filter _

/-- C6. Descriptor text: under content mode `"numbers"` the texts of the batch,
in creation order, are the decimal strings of `1, 2, ..., K`; under every other
content mode they are `K` empty strings (`K` the number of selected cells). -/
theorem createGrid_text (ps : PreviewSettings) (app : AppState) (baseX baseY : JSNum)
    (form : FormValues) (hg : IsSquare ps.elementsCount app.shadowGrid) :
    (form.contentType = "numbers" →
      (buildWidgets ps app baseX baseY form).2.1.widgets.map (fun d => d.text)
        = (List.range (selectedCells ps.elementsCount app.shadowGrid).length).map
            (fun i => toString (i + 1))) ∧
    (form.contentType ≠ "numbers" →
      (buildWidgets ps app baseX baseY form).2.1.widgets.map (fun d => d.text)
        = List.replicate (selectedCells ps.elementsCount app.shadowGrid).length "") := by
  rw [buildWidgets_eq ps app baseX baseY form (le_of_eq hg.1.symm)]
  constructor
  · intro h
    show (numbered _ 0 _).map _ = _
    rw [numbered_text]
    simp [prepareContent, h]
  · intro h
    show (numbered _ 0 _).map _ = _
    rw [numbered_text]
    simp [prepareContent, h]

/-- C6 at the spec's sample: a grid with 3 selected cells under `"numbers"`
yields the texts `"1"`, `"2"`, `"3"`, and under another mode three empty texts. -/
theorem createGrid_text_witness :
    IsSquare 12 threeCellGrid ∧
    (buildWidgets previewSettings ⟨objectTypes, threeCellGrid⟩ (.fin 1000) (.fin 500)
        ⟨"sticker", "4", "20", "numbers"⟩).2.1.widgets.map (fun d => d.text) = ["1", "2", "3"] ∧
    (buildWidgets previewSettings ⟨objectTypes, threeCellGrid⟩ (.fin 1000) (.fin 500)
        ⟨"sticker", "4", "20", "empty"⟩).2.1.widgets.map (fun d => d.text) = ["", "", ""] := by
  have hk : (selectedCells previewSettings.elementsCount threeCellGrid).length = 3 := by decide
  refine ⟨by decide, ?_, ?_⟩
  · have h := (createGrid_text previewSettings ⟨objectTypes, threeCellGrid⟩ (.fin 1000) (.fin 500)
      ⟨"sticker", "4", "20", "numbers"⟩ (by decide)).1 rfl
    rw [h]
    show List.map _ (List.range (selectedCells previewSettings.elementsCount threeCellGrid).length)
      = _
    rw [hk]
    decide
  · have h := (createGrid_text previewSettings ⟨objectTypes, threeCellGrid⟩ (.fin 1000) (.fin 500)
      ⟨"sticker", "4", "20", "empty"⟩ (by decide)).2 (by decide)
    rw [h]
    show List.replicate (selectedCells previewSettings.elementsCount threeCellGrid).length _ = _
    rw [hk]
    rfl

/-! ## Shape of the selection grid -/

theorem isSquare_replicate (n : Nat) (v : Cell) :
    IsSquare n (List.replicate n (List.replicate n v)) := by
  refine ⟨by simp, ?_⟩
  intro col hcol
  rw [List.eq_of_mem_replicate hcol]
  simp

theorem pushCell_last (g : Grid) (col : Column) (v : Cell) :
    pushCell (g ++ [col]) g.length v = (g ++ [col ++ [v]], none) := by
  simp [pushCell, List.set_append_right]

theorem initShadowGrid_eq (ps : PreviewSettings) :
    initShadowGrid ps
      = .ok (List.replicate ps.elementsCount (List.replicate ps.elementsCount (some false))) := by
  have inner : ∀ g : Grid,
      forRange ps.elementsCount (fun _ t => pushCell t g.length (some false)) (g ++ [[]])
        = (g ++ [List.replicate ps.elementsCount (some false)], none) := by
    intro g
    have h := forRange_inv ps.elementsCount (fun _ t => pushCell t g.length (some false))
      (g ++ [[]]) (fun j t => t = g ++ [List.replicate j (some false)]) (by simp)
      (by
        intro j _ t ht
        rw [ht]
        beta_reduce
        rw [pushCell_last]
        exact ⟨rfl, by simp [List.replicate_succ']⟩)
    exact Prod.ext h.2 h.1
  have outer := forRange_inv ps.elementsCount
    (fun i g => forRange ps.elementsCount (fun _ g => pushCell g i (some false)) (g ++ [[]]))
    ([] : Grid)
    (fun k t => t = List.replicate k (List.replicate ps.elementsCount (some false)))
    (by simp)
    (by
      intro k _ t ht
      have hl : t.length = k := by rw [ht]; simp
      have := inner t
      rw [hl] at this
      beta_reduce
      rw [this, ht]
      exact ⟨rfl, by simp [List.replicate_succ']⟩)
  have e : forRange ps.elementsCount
      (fun i g => forRange ps.elementsCount (fun _ g => pushCell g i (some false)) (g ++ [[]]))
      ([] : Grid)
      = (List.replicate ps.elementsCount (List.replicate ps.elementsCount (some false)), none) :=
    Prod.ext outer.2 outer.1
  unfold initShadowGrid
  rw [e]

theorem cellSet_length (col : Column) (j : Int) (v : Cell) :
    (cellSet col j v).length
      = if j < 0 then col.length
        else if j.toNat < col.length then col.length else j.toNat + 1 := by
  unfold cellSet
  split
  · rfl
  · split
    · simp
    · simp
      omega

theorem isSquare_set_iff (n : Nat) (g : Grid) (x : Nat) (col : Column)
    (hg : IsSquare n g) (hx : x < g.length) :
    IsSquare n (g.set x col) ↔ col.length = n := by
  constructor
  · intro h
    exact h.2 col (List.mem_set g x hx col)
  · exact isSquare_set n g x col hg

/-- The shift branch on a square grid, for any computed coordinates: outside
the columns it throws and leaves the grid; inside, the grid stays square
exactly when the row index is below `n`. -/
theorem toggleCell_shape (n : Nat) (g : Grid) (cx cy : Int) (hg : IsSquare n g) :
    IsSquare n (toggleCell g cx cy).1 ↔ ¬ (0 ≤ cx ∧ cx < n ∧ (n : Int) ≤ cy) := by
  by_cases hin : 0 ≤ cx ∧ cx < n
  · obtain ⟨h0, h1⟩ := hin
    have hxl : cx.toNat < g.length := by rw [hg.1]; omega
    have hgx : g[cx.toNat]? = some g[cx.toNat] := List.getElem?_eq_getElem hxl
    have hcl : (g[cx.toNat]).length = n := hg.2 _ (List.getElem_mem hxl)
    have ht : (toggleCell g cx cy).1
        = g.set cx.toNat (cellSet g[cx.toNat] cy (some (jsNot (cellGet g[cx.toNat] cy)))) := by
      simp [toggleCell, readCell, writeCell, arrayGet, h0, hgx]
    rw [ht, isSquare_set_iff n g _ _ hg hxl, cellSet_length, hcl]
    constructor
    · intro h hc
      have h2 : ¬ cy < 0 := by omega
      have h3 : ¬ cy.toNat < n := by omega
      simp only [h2, h3, if_false] at h
      omega
    · intro h
      by_cases h2 : cy < 0
      · simp [h2]
      · have h3 : cy.toNat < n := by
          have : ¬ (n : Int) ≤ cy := fun hc => h ⟨h0, h1, hc⟩
          omega
        simp [h2, h3]
  · have hget : arrayGet g cx = none := by
      unfold arrayGet
      split
      · rename_i h0
        apply List.getElem?_eq_none
        rw [hg.1]
        have : ¬ cx < n := fun h => hin ⟨h0, h⟩
        omega
      · rfl
    have ht : (toggleCell g cx cy).1 = g := by
      simp [toggleCell, readCell, hget]
    rw [ht]
    constructor
    · intro _ hc
      exact hin ⟨hc.1, hc.2.1⟩
    · intro _
      exact hg

/-- C7, as the code has it. `initShadowGrid` returns `N` columns of `N` cells,
all `false`. After a click on an `N x N` grid the grid is again `N x N`, for
every rectangle fill and for every single-cell toggle, except a toggle whose
computed column lies in `[0, N)` while its computed row is `N` or more. -/
theorem shadowGrid_shape (ps : PreviewSettings) (canvas : Canvas) (e : ClickEvent) (g : Grid)
    (hg : IsSquare ps.elementsCount g) :
    initShadowGrid ps
      = .ok (List.replicate ps.elementsCount (List.replicate ps.elementsCount (some false))) ∧
    IsSquare ps.elementsCount
      (List.replicate ps.elementsCount (List.replicate ps.elementsCount (some false))) ∧
    (IsSquare ps.elementsCount (toggleRectSelected ps canvas e g).shadowGrid ↔
      ¬ (e.shiftKey = true ∧ 0 ≤ clickedX ps e ∧ clickedX ps e < ps.elementsCount ∧
          (ps.elementsCount : Int) ≤ clickedY ps e)) := by
  refine ⟨initShadowGrid_eq ps, isSquare_replicate _ _, ?_⟩
  rw [toggleRectSelected_shadowGrid]
  by_cases hs : e.shiftKey = true
  · simp only [hs, if_true, true_and]
    exact toggleCell_shape _ g _ _ hg
  · have hf : e.shiftKey = false := by simpa using hs
    simp only [hf, Bool.false_eq_true, if_false, false_and, not_false_eq_true, iff_true]
    obtain ⟨_, b, _⟩ := fill_all ps.elementsCount g
      (fun x y => decide ((x : Int) ≤ clickedX ps e) && decide ((y : Int) ≤ clickedY ps e)) hg
    exact b

theorem clicked_sample :
    clickedX previewSettings ⟨10, 290, 0, 0, true⟩ = 0 ∧
    clickedY previewSettings ⟨10, 290, 0, 0, true⟩ = 12 := by
  constructor
  · unfold clickedX
    rw [Int.floor_eq_iff]
    simp only [previewSettings]
    constructor <;> norm_num
  · unfold clickedY
    rw [Int.floor_eq_iff]
    simp only [previewSettings]
    constructor <;> norm_num

/-- C7 at a sample: a plain click at offset `(60, 30)` on the initial grid
leaves a 12 x 12 grid. -/
theorem shadowGrid_shape_witness :
    IsSquare 12 emptyGrid ∧
    IsSquare 12 (toggleRectSelected previewSettings ⟨292, 292⟩ ⟨60, 30, 0, 0, false⟩
      emptyGrid).shadowGrid :=
  ⟨by decide,
   ((shadowGrid_shape previewSettings ⟨292, 292⟩ ⟨60, 30, 0, 0, false⟩ emptyGrid
      (by decide)).2.2).mpr (by simp)⟩

/-- C7 fails as stated: on the initial 12 x 12 grid and a canvas of 292 x 292
pixels, a shift-click at pointer offset `(10, 290)` computes the cell `(0, 12)`
and leaves column 0 with 13 cells. -/
theorem shadowGrid_shape_counterexample :
    initShadowGrid previewSettings = .ok emptyGrid ∧
    IsSquare 12 emptyGrid ∧
    clickedX previewSettings ⟨10, 290, 0, 0, true⟩ = 0 ∧
    clickedY previewSettings ⟨10, 290, 0, 0, true⟩ = 12 ∧
    (toggleRectSelected previewSettings ⟨292, 292⟩ ⟨10, 290, 0, 0, true⟩ emptyGrid).shadowGrid
      = (List.replicate 12 (some false) ++ [some true]) :: List.replicate 11 (List.replicate 12 (some false)) ∧
    ¬ IsSquare 12
      (toggleRectSelected previewSettings ⟨292, 292⟩ ⟨10, 290, 0, 0, true⟩ emptyGrid).shadowGrid := by
  have hg : (toggleRectSelected previewSettings ⟨292, 292⟩ ⟨10, 290, 0, 0, true⟩
      emptyGrid).shadowGrid
      = (List.replicate 12 (some false) ++ [some true])
          :: List.replicate 11 (List.replicate 12 (some false)) := by
    rw [toggleRectSelected_shadowGrid, clicked_sample.1, clicked_sample.2]
    decide
  refine ⟨initShadowGrid_eq previewSettings, by decide, clicked_sample.1, clicked_sample.2, hg, ?_⟩
  rw [hg]
  decide

/-! ## Host calls -/

/-- C8. Host call sequencing in `createGrid` on an `N x N` grid: the batch built
is passed to one creation call; when that call fails, no selection call is made
and `createGrid` fails with the same failure; when it succeeds, one selection
call follows, made on the value the creation returned and on the host state
the creation left, and `createGrid` fails with the failure of the selection
when that fails and succeeds otherwise. -/
theorem createGrid_host_calls {σ ω ε : Type} (ps : PreviewSettings) (host : Host σ ω ε)
    (baseX baseY : JSNum) (form : FormValues) (app : AppState) (h : σ)
    (hg : IsSquare ps.elementsCount app.shadowGrid) :
    (∀ e h1, host.create (buildWidgets ps app baseX baseY form).2.1.widgets h = (.error e, h1) →
      (createGrid ps host baseX baseY form app h).calls
        = [.create (buildWidgets ps app baseX baseY form).2.1.widgets] ∧
      (createGrid ps host baseX baseY form app h).result = .error (.rejected e) ∧
      (createGrid ps host baseX baseY form app h).host = h1) ∧
    (∀ w h1, host.create (buildWidgets ps app baseX baseY form).2.1.widgets h = (.ok w, h1) →
      (createGrid ps host baseX baseY form app h).calls
        = [.create (buildWidgets ps app baseX baseY form).2.1.widgets, .selectWidgets w] ∧
      (createGrid ps host baseX baseY form app h).host = (host.selectWidgets w h1).2 ∧
      (∀ e h2, host.selectWidgets w h1 = (.error e, h2) →
        (createGrid ps host baseX baseY form app h).result = .error (.rejected e)) ∧
      (∀ u h2, host.selectWidgets w h1 = (.ok u, h2) →
        (createGrid ps host baseX baseY form app h).result = .ok ())) := by
  have hb : (buildWidgets ps app baseX baseY form).2.2 = none := by
    rw [buildWidgets_eq ps app baseX baseY form (le_of_eq hg.1.symm)]
  constructor
  · intro e h1 hc
    simp [createGrid, hb, hc]
  · intro w h1 hc
    refine ⟨?_, ?_, ?_, ?_⟩
    · simp only [createGrid, hb, hc]
      split <;> rfl
    · simp only [createGrid, hb, hc]
      split <;> simp_all
    · intro e h2 hs
      simp only [createGrid, hb, hc, hs]
    · intro u h2 hs
      simp only [createGrid, hb, hc, hs]

/-- C8 at a sample: with a host that accepts every call, `createGrid` on a grid
with three selected cells makes one creation call and then one selection call
on the returned value, and succeeds. -/
theorem createGrid_host_calls_witness :
    IsSquare 12 threeCellGrid ∧
    (createGrid previewSettings acceptingHost (.fin 1000) (.fin 500) ⟨"sticker", "4", "20", "numbers"⟩
        ⟨objectTypes, threeCellGrid⟩ 0).calls
      = [.create (buildWidgets previewSettings ⟨objectTypes, threeCellGrid⟩ (.fin 1000) (.fin 500)
            ⟨"sticker", "4", "20", "numbers"⟩).2.1.widgets,
         .selectWidgets (buildWidgets previewSettings ⟨objectTypes, threeCellGrid⟩ (.fin 1000) (.fin 500)
            ⟨"sticker", "4", "20", "numbers"⟩).2.1.widgets.length] ∧
    (createGrid previewSettings acceptingHost (.fin 1000) (.fin 500) ⟨"sticker", "4", "20", "numbers"⟩
        ⟨objectTypes, threeCellGrid⟩ 0).result = .ok () := by
  have h := (createGrid_host_calls previewSettings acceptingHost (.fin 1000) (.fin 500)
    ⟨"sticker", "4", "20", "numbers"⟩ ⟨objectTypes, threeCellGrid⟩ 0 (by decide)).2 _ 1 rfl
  exact ⟨by decide, h.1, h.2.2.2 () 2 rfl⟩

/-! ## History independence -/

theorem templatesIntact_prepare (ot : ObjectTypes) (form : FormValues) (h : TemplatesIntact ot) :
    TemplatesIntact (prepareObject ot form).1 := by
  unfold prepareObject
  split
  · exact h
  · split
    · exact h
    · exact h

theorem prepareObject_object (ot : ObjectTypes) (form : FormValues) (h : TemplatesIntact ot) :
    (prepareObject ot form).2 = (prepareObject objectTypes form).2 := by
  obtain ⟨a, b, c, d, e, f, g⟩ := h
  unfold prepareObject
  split
  · simp only [Option.some.injEq]
    cases hs : ot.sticker
    simp_all [objectTypes]
  · split
    · simp only [Option.some.injEq]
      cases hs : ot.shape
      simp_all [objectTypes]
    · rfl

theorem createGrid_app {σ ω ε : Type} (ps : PreviewSettings) (host : Host σ ω ε)
    (baseX baseY : JSNum) (form : FormValues) (app : AppState) (h : σ) :
    (createGrid ps host baseX baseY form app h).app
      = ⟨(prepareObject app.objectTypes form).1, app.shadowGrid⟩ := by
  simp only [createGrid]
  split
  · rfl
  · split
    · rfl
    · split <;> rfl

theorem templatesIntact_afterCalls {σ ω ε : Type} (ps : PreviewSettings) (host : Host σ ω ε)
    (calls : List CreateCall) (s : ObjectTypes × σ) (h : TemplatesIntact s.1) :
    TemplatesIntact (afterCalls ps host calls s).1 := by
  induction calls generalizing s with
  | nil => exact h
  | cons c cs ih =>
    simp only [afterCalls]
    apply ih
    simp only [createGrid_app]
    exact templatesIntact_prepare _ _ h

/-- C10. History independence of `createGrid`: for the same selection grid,
base coordinate and page values, the counter, the batch of descriptors and the
exception of the loop are the same after any two sequences of earlier
`createGrid` calls (with any grids, types, sizes and hosts) made since the
program was loaded; and `createGrid` leaves the selection grid as it was. -/
theorem createGrid_history_independent {σ ω ε σ2 ω2 ε2 : Type} (ps : PreviewSettings)
    (host : Host σ ω ε) (host2 : Host σ2 ω2 ε2) (calls : List CreateCall)
    (calls2 : List CreateCall) (h : σ) (h2 : σ2) (g : Grid) (baseX baseY : JSNum)
    (form : FormValues) :
    (buildWidgets ps ⟨(afterCalls ps host calls (objectTypes, h)).1, g⟩ baseX baseY form).2
      = (buildWidgets ps ⟨(afterCalls ps host2 calls2 (objectTypes, h2)).1, g⟩
          baseX baseY form).2 ∧
    (∀ (app : AppState) (s : σ),
      (createGrid ps host baseX baseY form app s).app.shadowGrid = app.shadowGrid) := by
  have h0 : TemplatesIntact objectTypes := by
    unfold TemplatesIntact objectTypes
    simp
  have e1 := prepareObject_object _ form (templatesIntact_afterCalls ps host calls (objectTypes, h) h0)
  have e2 := prepareObject_object _ form (templatesIntact_afterCalls ps host2 calls2 (objectTypes, h2) h0)
  constructor
  · simp only [buildWidgets, e1, e2]
  · intro app s
    rw [createGrid_app]

/-! ## The preview and the hit test -/

/-- A loop whose every iteration appends to the list of calls made so far. -/
theorem forRange_append {α : Type} (n : Nat) (body : Nat → List α → List α × Option JSError)
    (f : Nat → List α) (s : List α) (h : ∀ k, k < n → ∀ t, body k t = (t ++ f k, none)) :
    forRange n body s = (s ++ (List.range n).flatMap f, none) := by
  have hi := forRange_inv n body s (fun k t => t = s ++ (List.range k).flatMap f) (by simp)
    (by
      intro k hk t ht
      rw [h k hk t, ht]
      exact ⟨rfl, by simp [List.range_succ, List.flatMap_append]⟩)
  exact Prod.ext hi.2 hi.1

/-- The redraw on a grid with all its columns: no exception, and after the
clearing call one colour choice and one square per cell, in row-major order. -/
theorem refreshGridSelector_eq (ps : PreviewSettings) (canvas : Canvas) (g : Grid)
    (hn : ps.elementsCount ≤ g.length) :
    refreshGridSelector ps canvas g
      = ([CanvasOp.clearRect 0 0 canvas.width canvas.height]
          ++ (List.range ps.elementsCount).flatMap (fun y =>
              (List.range ps.elementsCount).flatMap (fun x =>
                [CanvasOp.strokeStyle
                    (if strictEqFalse (cellAt g x y) then "#E1E0E7" else "#050038"),
                 cellRect ps x y])), none) := by
  unfold refreshGridSelector
  apply forRange_append
  intro y _ t
  apply forRange_append
  intro x hx t2
  rw [readCell_natCast g x y (by omega)]

theorem cellRect_eq (ps : PreviewSettings) (x y : Nat) :
    cellRect ps x y
      = .strokeRect ((ps.margin : Int) + (x : Int) * ((ps.size : Int) + (ps.margin : Int)))
          ((ps.margin : Int) + (y : Int) * ((ps.size : Int) + (ps.margin : Int)))
          (ps.size : Int) (ps.size : Int) := by
  have c : ∀ k : Nat, (ps.margin : ℚ) + ((k : ℚ) * (ps.size : ℚ)) + ((k : ℚ) * (ps.margin : ℚ))
      = (((ps.margin : Int) + (k : Int) * ((ps.size : Int) + (ps.margin : Int)) : Int) : ℚ) := by
    intro k; push_cast; ring
  unfold cellRect
  rw [c x, c y, parseIntNum_intCast, parseIntNum_intCast]

/-- The floor of the hit test: an offset inside the square of index `k` along
one axis is mapped to `k`. -/
theorem floor_offset (size margin k : Nat) (p : ℚ)
    (h1 : (margin : ℚ) + (k : ℚ) * ((size : ℚ) + (margin : ℚ)) ≤ p)
    (h2 : p < (margin : ℚ) + (k : ℚ) * ((size : ℚ) + (margin : ℚ)) + (size : ℚ)) :
    ⌊p / (((size + margin : Nat)) : ℚ)⌋ = (k : Int) := by
  have hs : (0 : ℚ) < (size : ℚ) := by linarith
  have hm : (0 : ℚ) ≤ (margin : ℚ) := Nat.cast_nonneg margin
  have hpos : (0 : ℚ) < (((size + margin : Nat)) : ℚ) := by push_cast; linarith
  rw [Int.floor_eq_iff]
  constructor
  · rw [le_div_iff₀ hpos]
    push_cast
    linarith
  · rw [div_lt_iff₀ hpos]
    push_cast
    linarith

/-- C9. The hit test agrees with the drawn preview: on an `N x N` grid the
redraw ends without an exception and, for every cell `(x, y)` with
`0 <= x, y < N`, strokes the square with left/top corner
`(margin + x*(size+margin), margin + y*(size+margin))` and side `size`; and
every pointer offset inside that square (left and top edges included, right and
bottom edges excluded) yields the clicked coordinates `(x, y)`. -/
theorem hitTest_agrees_with_preview (ps : PreviewSettings) (canvas : Canvas) (g : Grid)
    (x y : Nat) (hg : IsSquare ps.elementsCount g)
    (hx : x < ps.elementsCount) (hy : y < ps.elementsCount) :
    (refreshGridSelector ps canvas g).2 = none ∧
    cellRect ps x y
      = .strokeRect ((ps.margin : Int) + (x : Int) * ((ps.size : Int) + (ps.margin : Int)))
          ((ps.margin : Int) + (y : Int) * ((ps.size : Int) + (ps.margin : Int)))
          (ps.size : Int) (ps.size : Int) ∧
    CanvasOp.strokeRect ((ps.margin : Int) + (x : Int) * ((ps.size : Int) + (ps.margin : Int)))
        ((ps.margin : Int) + (y : Int) * ((ps.size : Int) + (ps.margin : Int)))
        (ps.size : Int) (ps.size : Int) ∈ (refreshGridSelector ps canvas g).1 ∧
    ∀ e : ClickEvent,
      (ps.margin : ℚ) + (x : ℚ) * ((ps.size : ℚ) + (ps.margin : ℚ)) ≤ e.clientX - e.rectLeft →
      e.clientX - e.rectLeft
        < (ps.margin : ℚ) + (x : ℚ) * ((ps.size : ℚ) + (ps.margin : ℚ)) + (ps.size : ℚ) →
      (ps.margin : ℚ) + (y : ℚ) * ((ps.size : ℚ) + (ps.margin : ℚ)) ≤ e.clientY - e.rectTop →
      e.clientY - e.rectTop
        < (ps.margin : ℚ) + (y : ℚ) * ((ps.size : ℚ) + (ps.margin : ℚ)) + (ps.size : ℚ) →
      clickedX ps e = (x : Int) ∧ clickedY ps e = (y : Int) := by
  rw [refreshGridSelector_eq ps canvas g (le_of_eq hg.1.symm)]
  refine ⟨rfl, cellRect_eq ps x y, ?_, ?_⟩
  · rw [← cellRect_eq ps x y]
    simp only [List.mem_append, List.mem_flatMap, List.mem_range]
    right
    exact ⟨y, hy, x, hx, by simp⟩
  · intro e h1 h2 h3 h4
    exact ⟨floor_offset ps.size ps.margin x _ h1 h2, floor_offset ps.size ps.margin y _ h3 h4⟩

/-- C9 at a sample with size 20 and margin 4: the square of cell `(2, 1)` is
stroked at `(52, 28)` with side 20, and the pointer offset `(60, 30)` inside it
yields the clicked coordinates `(2, 1)`. -/
theorem hitTest_agrees_with_preview_witness :
    IsSquare 12 emptyGrid ∧
    CanvasOp.strokeRect 52 28 20 20 ∈ (refreshGridSelector previewSettings ⟨292, 292⟩ emptyGrid).1 ∧
    clickedX previewSettings ⟨60, 30, 0, 0, false⟩ = 2 ∧
    clickedY previewSettings ⟨60, 30, 0, 0, false⟩ = 1 := by
  have h := hitTest_agrees_with_preview previewSettings ⟨292, 292⟩ emptyGrid 2 1
    (by decide) (by decide) (by decide)
  have hc := h.2.2.2 ⟨60, 30, 0, 0, false⟩
    (by simp only [previewSettings]; norm_num) (by simp only [previewSettings]; norm_num)
    (by simp only [previewSettings]; norm_num) (by simp only [previewSettings]; norm_num)
  exact ⟨by decide, h.2.2.1, hc.1, hc.2⟩

/-! ## Samples -/

/-- C1 at a sample: filling from the clicked cell `(2, 1)` over a grid holding
another selection sets `(2, 1)` and clears `(3, 1)` and `(0, 2)`. -/
theorem fillRectangleFromOrigin_spec_witness :
    IsSquare 12 threeCellGrid ∧
    (fillRectangleFromOrigin previewSettings threeCellGrid 2 1).2 = none ∧
    cellAt (fillRectangleFromOrigin previewSettings threeCellGrid 2 1).1 2 1 = some true ∧
    cellAt (fillRectangleFromOrigin previewSettings threeCellGrid 2 1).1 3 1 = some false ∧
    cellAt (fillRectangleFromOrigin previewSettings threeCellGrid 2 1).1 0 2 = some false := by
  have h := fillRectangleFromOrigin_spec previewSettings threeCellGrid 2 1 (by decide)
  refine ⟨by decide, h.1, ?_, ?_, ?_⟩
  · rw [h.2.2.1 2 1 (by decide) (by decide)]; decide
  · rw [h.2.2.1 3 1 (by decide) (by decide)]; decide
  · rw [h.2.2.1 0 2 (by decide) (by decide)]; decide

/-- C2 at a sample: toggling the selected cell `(1, 0)` clears it and leaves
the selected cell `(2, 0)` selected. -/
theorem toggleCell_spec_witness :
    IsSquare 12 threeCellGrid ∧
    cellAt threeCellGrid 1 0 = some true ∧
    cellAt (toggleCell threeCellGrid 1 0).1 1 0 = some false ∧
    cellAt (toggleCell threeCellGrid 1 0).1 2 0 = cellAt threeCellGrid 2 0 := by
  have h := toggleCell_spec 12 threeCellGrid 1 0 (by decide) (by decide) (by decide)
  exact ⟨by decide, by decide, h.2.2.2.1 true (by decide), h.2.2.2.2.1 2 0 (by decide)⟩

/-- C3 at a sample: three selected cells give a batch of three descriptors, the
second one built for the cell `(1, 0)` with counter value 2. -/
theorem createGrid_batch_order_witness :
    IsSquare 12 threeCellGrid ∧
    (buildWidgets previewSettings ⟨objectTypes, threeCellGrid⟩ (.fin 1000) (.fin 500)
        ⟨"shape", "4", "20", "numbers"⟩).2.1.widgets.length = 3 ∧
    (buildWidgets previewSettings ⟨objectTypes, threeCellGrid⟩ (.fin 1000) (.fin 500)
        ⟨"shape", "4", "20", "numbers"⟩).2.1.widgets[1]?
      = some (newWidget (.fin 1000) (.fin 500) ⟨"shape", "4", "20", "numbers"⟩
          (prepareObject objectTypes ⟨"shape", "4", "20", "numbers"⟩).2 1 0 2) := by
  have h := createGrid_batch_order previewSettings ⟨objectTypes, threeCellGrid⟩ (.fin 1000) (.fin 500)
    ⟨"shape", "4", "20", "numbers"⟩ (by decide)
  have hk : (selectedCells previewSettings.elementsCount threeCellGrid).length = 3 := by decide
  exact ⟨by decide, h.2.2.1.trans hk, h.2.2.2.1 1 1 0 (by decide)⟩

/-! ## Exact arithmetic -/

theorem exact_of_scaled (q : ℚ) (m : Int) (hm : q * 1024 = (m : ℚ)) (hb : |q| ≤ 2 ^ 43) :
    Exact q :=
  ⟨hb, by rw [hm, Int.floor_intCast]⟩

theorem exact_intCast (z : Int) (h : |z| ≤ 2 ^ 43) : Exact (z : ℚ) := by
  refine exact_of_scaled _ (z * 1024) (by push_cast; ring) ?_
  have : ((|z| : Int) : ℚ) ≤ ((2 ^ 43 : Int) : ℚ) := Int.cast_le.mpr h
  simpa using this

theorem jsAdd_fin (p q : ℚ) (hp : Exact p) (hq : Exact q) (hpq : Exact (p + q)) :
    jsAdd (.fin p) (.fin q) = .fin (p + q) := by
  simp [jsAdd, hp, hq, hpq]

/-- Adding a product: the sum is exact also when the product is `-0`. -/
theorem jsAdd_jsMul (b p q : ℚ) (hb : Exact b) (hp : Exact p) (hq : Exact q)
    (hpq : Exact (p * q)) (hs : Exact (b + p * q)) :
    jsAdd (.fin b) (jsMul (.fin p) (.fin q)) = .fin (b + p * q) := by
  by_cases hz : p * q = 0 ∧ (p < 0 ∨ q < 0)
  · have h0 : Exact (0 : ℚ) := by
      have := hpq
      rwa [hz.1] at this
    have e : jsMul (.fin p) (.fin q) = .negZero := by simp [jsMul, hp, hq, hz, h0]
    rw [e]
    simp [jsAdd, hb, hz.1]
  · have e : jsMul (.fin p) (.fin q) = .fin (p * q) := by
      simp only [jsMul, hp, hq, hpq, and_self, if_true, hz, if_false]
    rw [e]
    exact jsAdd_fin b (p * q) hb hpq hs

theorem jsParseIntNumber_nonneg (q : ℚ) (hq : Exact q) (h0 : 0 ≤ q) :
    jsParseIntNumber (.fin q) = .fin ((⌊q⌋ : Int) : ℚ) := by
  simp [jsParseIntNumber, hq, h0]

theorem jsParseIntNumber_intCast (z : Int) (hz : Exact (z : ℚ)) :
    jsParseIntNumber (.fin (z : ℚ)) = .fin (z : ℚ) := by
  by_cases h0 : 0 ≤ z
  · have : (0 : ℚ) ≤ (z : ℚ) := Int.cast_nonneg.mpr h0
    rw [jsParseIntNumber_nonneg _ hz this, Int.floor_intCast]
  · have hq : ¬ (0 : ℚ) ≤ (z : ℚ) := fun h => h0 (Int.cast_nonneg.mp h)
    have hne : z ≠ 0 := by omega
    simp [jsParseIntNumber, hz, hq, hne]

/-- The position of a cell for integer base, item size and margin within the
bounds: every intermediate value is exact. -/
theorem position_int (b s m : Int) (x : Nat) (hb : |b| ≤ 2 ^ 42) (hs : |s| ≤ 2 ^ 20)
    (hm : |m| ≤ 2 ^ 20) (hx : x ≤ 2 ^ 20) :
    jsParseIntNumber
      (jsAdd (jsAdd (.fin (b : ℚ)) (jsMul (.fin (x : ℚ)) (.fin (s : ℚ))))
        (jsMul (.fin (x : ℚ)) (.fin (m : ℚ))))
      = .fin ((b + (x : Int) * (s + m) : Int) : ℚ) := by
  obtain ⟨hb1, hb2⟩ := abs_le.mp hb
  obtain ⟨hs1, hs2⟩ := abs_le.mp hs
  obtain ⟨hm1, hm2⟩ := abs_le.mp hm
  have hx0 : (0 : Int) ≤ (x : Int) := Int.natCast_nonneg x
  have hx1 : (x : Int) ≤ 2 ^ 20 := by exact_mod_cast hx
  have bxs : |(x : Int) * s| ≤ 2 ^ 40 := by
    rw [abs_le]; constructor <;> nlinarith
  have bxm : |(x : Int) * m| ≤ 2 ^ 40 := by
    rw [abs_le]; constructor <;> nlinarith
  obtain ⟨a1, a2⟩ := abs_le.mp bxs
  obtain ⟨c1, c2⟩ := abs_le.mp bxm
  have eb : Exact (b : ℚ) := exact_intCast b (by rw [abs_le]; constructor <;> omega)
  have ex : Exact ((x : ℚ)) := by
    have := exact_intCast (x : Int) (by rw [abs_le]; constructor <;> omega)
    simpa using this
  have es : Exact (s : ℚ) := exact_intCast s (by rw [abs_le]; constructor <;> omega)
  have em : Exact (m : ℚ) := exact_intCast m (by rw [abs_le]; constructor <;> omega)
  have exs : Exact ((x : ℚ) * (s : ℚ)) := by
    have := exact_intCast ((x : Int) * s) (by rw [abs_le]; constructor <;> omega)
    simpa using this
  have exm : Exact ((x : ℚ) * (m : ℚ)) := by
    have := exact_intCast ((x : Int) * m) (by rw [abs_le]; constructor <;> omega)
    simpa using this
  have e1 : Exact ((b : ℚ) + (x : ℚ) * (s : ℚ)) := by
    have := exact_intCast (b + (x : Int) * s) (by rw [abs_le]; constructor <;> omega)
    simpa using this
  have e2 : Exact ((b : ℚ) + (x : ℚ) * (s : ℚ) + (x : ℚ) * (m : ℚ)) := by
    have := exact_intCast (b + (x : Int) * s + (x : Int) * m)
      (by rw [abs_le]; constructor <;> omega)
    simpa using this
  rw [jsAdd_jsMul _ _ _ eb ex es exs e1,
    jsAdd_jsMul _ _ _ e1 ex em exm e2]
  have c : (b : ℚ) + (x : ℚ) * (s : ℚ) + (x : ℚ) * (m : ℚ)
      = ((b + (x : Int) * (s + m) : Int) : ℚ) := by push_cast; ring
  rw [c] at e2 ⊢
  exact jsParseIntNumber_intCast _ e2


/-! ## Numeric strings -/

theorem leadingDigits_digits (cs : List Char) (h : ∀ c ∈ cs, 48 ≤ c.toNat ∧ c.toNat ≤ 57) :
    leadingDigits 10 cs = cs.map (fun c => c.toNat - 48) := by
  induction cs with
  | nil => rfl
  | cons c t ih =>
    have hc := h c (List.mem_cons_self _ _)
    have ht := ih (fun d hd => h d (List.mem_cons_of_mem _ hd))
    have hv : digitValue c = some (c.toNat - 48) := by simp [digitValue, hc]
    have hlt : c.toNat - 48 < 10 := by omega
    simp [leadingDigits, hv, hlt, ht]

theorem digitsValue_lt (ds : List Nat) (h : ∀ d ∈ ds, d < 10) (acc : Nat) :
    ds.foldl (fun a d => a * 10 + d) acc + 1 ≤ (acc + 1) * 10 ^ ds.length := by
  induction ds generalizing acc with
  | nil => simp
  | cons d t ih =>
    have hd := h d (List.mem_cons_self _ _)
    have := ih (fun e he => h e (List.mem_cons_of_mem _ he)) (acc * 10 + d)
    simp only [List.foldl_cons, List.length_cons]
    calc List.foldl (fun a d => a * 10 + d) (acc * 10 + d) t + 1
        ≤ (acc * 10 + d + 1) * 10 ^ t.length := this
      _ ≤ ((acc + 1) * 10) * 10 ^ t.length := by
          apply Nat.mul_le_mul_right
          omega
      _ = (acc + 1) * 10 ^ (t.length + 1) := by ring

/-- On an unsigned decimal integer numeral, `parseInt` and the conversion to a
number agree: both give the integer the digits denote. -/
theorem decimalInteger_value (s : String) (h : IsDecimalInteger s) :
    jsParseIntString s
      = .fin ((digitsValue 10 (s.toList.map (fun c => c.toNat - 48)) : Nat) : ℚ) ∧
    jsToNumber s
      = .fin ((digitsValue 10 (s.toList.map (fun c => c.toNat - 48)) : Nat) : ℚ) := by
  obtain ⟨hne, hlen, hdig⟩ := h
  have hlen2 : s.toList.length ≤ 12 := hlen
  -- the numeral starts with a digit
  obtain ⟨c, t, hct⟩ : ∃ c t, s.toList = c :: t := by
    cases hs : s.toList with
    | nil => exact absurd hs hne
    | cons c t => exact ⟨c, t, rfl⟩
  have hc : 48 ≤ c.toNat ∧ c.toNat ≤ 57 := hdig c (by rw [hct]; exact List.mem_cons_self _ _)
  have hws : isJSWhiteSpace c = false := by
    unfold isJSWhiteSpace
    rw [Bool.or_eq_false_iff, decide_eq_false_iff_not, Bool.and_eq_false_iff,
      decide_eq_false_iff_not]
    constructor
    · intro hm
      simp only [List.mem_cons, List.mem_singleton, List.not_mem_nil, or_false] at hm
      omega
    · left; omega
  have hdrop : s.toList.dropWhile isJSWhiteSpace = s.toList := by
    rw [hct]; simp [List.dropWhile, hws]
  have hsign : stripSign s.toList = (false, s.toList) := by
    rw [hct]
    have h1 : ¬ c.toNat = 45 := by omega
    have h2 : ¬ c.toNat = 43 := by omega
    simp [stripSign, h1, h2]
  have hhex : takeRadix s.toList = (10, s.toList) := by
    rw [hct]
    cases t with
    | nil => rfl
    | cons c2 t2 =>
      have hc2 : 48 ≤ c2.toNat ∧ c2.toNat ≤ 57 := hdig c2 (by rw [hct]; simp)
      have h3 : ¬ (c.toNat = 48 ∧ (c2.toNat = 120 ∨ c2.toNat = 88)) := by omega
      simp [takeRadix, h3]
  have hld := leadingDigits_digits s.toList hdig
  have hds : s.toList.map (fun c => c.toNat - 48) ≠ [] := by
    rw [hct]; simp
  have hbound : digitsValue 10 (s.toList.map (fun c => c.toNat - 48)) + 1 ≤ 10 ^ 12 := by
    have := digitsValue_lt (s.toList.map (fun c => c.toNat - 48))
      (by
        intro d hd
        simp only [List.mem_map] at hd
        obtain ⟨e, he, rfl⟩ := hd
        have := hdig e he
        omega) 0
    simp only [List.length_map, Nat.zero_add, Nat.one_mul] at this
    calc _ ≤ 10 ^ s.toList.length := this
      _ ≤ 10 ^ 12 := Nat.pow_le_pow_right (by norm_num) hlen2
  generalize hn : digitsValue 10 (s.toList.map (fun c => c.toNat - 48)) = n at hbound ⊢
  have hn53 : n ≤ 2 ^ 53 := by
    have : (10 : Nat) ^ 12 ≤ 2 ^ 53 := by norm_num
    omega
  constructor
  · simp only [jsParseIntString, hdrop, hsign, hhex, hld, hds, if_false, hn, hn53, if_true]
    by_cases h0 : n = 0
    · simp [h0]
    · simp [h0]
  · have hex : Exact ((n : ℚ) / 10 ^ 0) := by
      have := exact_intCast (n : Int) (by
        rw [abs_le]
        have : (10 : Nat) ^ 12 ≤ 2 ^ 43 := by norm_num
        constructor <;> omega)
      simpa using this
    have hdropn : s.toList.drop (s.toList.map (fun c => c.toNat - 48)).length = [] := by
      rw [List.length_map]
      exact List.drop_length _
    have hpd : parseDecimal s.toList = some (false, n, 0) := by
      simp only [parseDecimal, hsign, hld, hdropn, hds, if_false, hn]
    have hl20 : s.length ≤ 20 := by omega
    simp only [jsToNumber, hne, if_false, hpd, hl20, hex, and_self, if_true]
    simp

/-! ## Positions of the descriptors -/

theorem jsToNumber_decimal (s : String) (m k : Nat) (hne : s.toList ≠ [])
    (hpd : parseDecimal s.toList = some (false, m, k)) (hl : s.length ≤ 20)
    (hex : Exact ((m : ℚ) / 10 ^ k)) : jsToNumber s = .fin ((m : ℚ) / 10 ^ k) := by
  simp only [jsToNumber, hne, if_false, hpd, hl, hex, and_self, if_true]
  simp

theorem buildWidgets_head (app : AppState) (baseX baseY : JSNum) (form : FormValues)
    (hn : previewSettings.elementsCount ≤ app.shadowGrid.length) (x y : Nat)
    (rest : List (Nat × Nat))
    (hs : selectedCells previewSettings.elementsCount app.shadowGrid = (x, y) :: rest) :
    (buildWidgets previewSettings app baseX baseY form).2.1.widgets[0]?
      = some (newWidget baseX baseY form (prepareObject app.objectTypes form).2 x y 1) := by
  rw [buildWidgets_eq _ _ _ _ _ hn]
  show (numbered _ 0 (selectedCells previewSettings.elementsCount app.shadowGrid))[0]? = _
  rw [hs]
  simp [numbered]

theorem newWidget_x (baseX baseY : JSNum) (form : FormValues) (object : Option Template)
    (x y k : Nat) :
    (newWidget baseX baseY form object x y k).x
      = jsParseIntNumber
          (jsAdd (jsAdd baseX (jsMul (.fin (x : ℚ)) (jsToNumber form.itemSize)))
            (jsMul (.fin (x : ℚ)) (jsToNumber form.margin))) := by
  cases object <;> rfl

theorem newWidget_y (baseX baseY : JSNum) (form : FormValues) (object : Option Template)
    (x y k : Nat) :
    (newWidget baseX baseY form object x y k).y
      = jsParseIntNumber
          (jsAdd (jsAdd baseY (jsMul (.fin (y : ℚ)) (jsToNumber form.itemSize)))
            (jsMul (.fin (y : ℚ)) (jsToNumber form.margin))) := by
  cases object <;> rfl

/-- C4, as the code has it. The descriptor built for a selected cell `(x, y)`
has `x` field `parseInt(baseX + x*itemSize + x*margin)` and `y` field
`parseInt(baseY + y*itemSize + y*margin)`, computed on JS numbers from the
numeric values of the two fields; when the base coordinates are integers of
magnitude at most `2^42`, the item size and the margin are integers of
magnitude at most `2^20` and the grid has at most `2^20` rows and columns,
these are `baseX + x*(itemSize + margin)` and `baseY + y*(itemSize + margin)`. -/
theorem createGrid_position (ps : PreviewSettings) (app : AppState) (baseX baseY : JSNum)
    (form : FormValues) (i x y : Nat) (hg : IsSquare ps.elementsCount app.shadowGrid)
    (hsel : (selectedCells ps.elementsCount app.shadowGrid)[i]? = some (x, y)) :
    ∃ d, (buildWidgets ps app baseX baseY form).2.1.widgets[i]? = some d ∧
      d.x = jsParseIntNumber
          (jsAdd (jsAdd baseX (jsMul (.fin (x : ℚ)) (jsToNumber form.itemSize)))
            (jsMul (.fin (x : ℚ)) (jsToNumber form.margin))) ∧
      d.y = jsParseIntNumber
          (jsAdd (jsAdd baseY (jsMul (.fin (y : ℚ)) (jsToNumber form.itemSize)))
            (jsMul (.fin (y : ℚ)) (jsToNumber form.margin))) ∧
      ∀ b1 b2 s m : Int, baseX = .fin (b1 : ℚ) → baseY = .fin (b2 : ℚ) →
        jsToNumber form.itemSize = .fin (s : ℚ) → jsToNumber form.margin = .fin (m : ℚ) →
        |b1| ≤ 2 ^ 42 → |b2| ≤ 2 ^ 42 → |s| ≤ 2 ^ 20 → |m| ≤ 2 ^ 20 →
        ps.elementsCount ≤ 2 ^ 20 →
        d.x = .fin ((b1 + (x : Int) * (s + m) : Int) : ℚ) ∧
        d.y = .fin ((b2 + (y : Int) * (s + m) : Int) : ℚ) := by
  have hmem := (mem_selectedCells ps.elementsCount app.shadowGrid x y).mp (List.getElem?_mem hsel)
  rw [buildWidgets_eq ps app baseX baseY form (le_of_eq hg.1.symm)]
  refine ⟨newWidget baseX baseY form (prepareObject app.objectTypes form).2 x y (i + 1),
    ?_, newWidget_x _ _ _ _ _ _ _, newWidget_y _ _ _ _ _ _ _, ?_⟩
  · show (numbered _ 0 _)[i]? = _
    rw [numbered_getElem?, hsel]
    simp
  · intro b1 b2 s m h1 h2 h3 h4 hb1 hb2 hs hm hN
    rw [newWidget_x, newWidget_y, h1, h2, h3, h4]
    exact ⟨position_int b1 s m x hb1 hs hm (by omega),
      position_int b2 s m y hb2 hs hm (by omega)⟩

theorem jsToNumber_sample :
    jsToNumber "20" = .fin ((20 : Int) : ℚ) ∧ jsToNumber "4" = .fin ((4 : Int) : ℚ) := by
  have h20 : digitsValue 10 ("20".toList.map (fun c => c.toNat - 48)) = 20 := by decide
  have h4 : digitsValue 10 ("4".toList.map (fun c => c.toNat - 48)) = 4 := by decide
  constructor
  · rw [(decimalInteger_value "20" (by decide)).2, h20]
    norm_num
  · rw [(decimalInteger_value "4" (by decide)).2, h4]
    norm_num

/-- C4 at the spec's sample: cell `(2, 1)`, base `(1000, 500)`, item size 20,
margin 4 gives position `(1048, 524)`. -/
theorem createGrid_position_witness :
    IsSquare 12 cell21Grid ∧
    (selectedCells 12 cell21Grid)[0]? = some (2, 1) ∧
    ∃ d, (buildWidgets previewSettings ⟨objectTypes, cell21Grid⟩ (.fin 1000) (.fin 500)
            ⟨"shape", "4", "20", ""⟩).2.1.widgets[0]? = some d ∧
      d.x = .fin 1048 ∧ d.y = .fin 524 := by
  refine ⟨by decide, by decide, ?_⟩
  obtain ⟨d, hd, _, _, h⟩ := createGrid_position previewSettings ⟨objectTypes, cell21Grid⟩
    (.fin 1000) (.fin 500) ⟨"shape", "4", "20", ""⟩ 0 2 1 (by decide) (by decide)
  have := h 1000 500 20 4 (by norm_num) (by norm_num) jsToNumber_sample.1 jsToNumber_sample.2
    (by norm_num) (by norm_num) (by norm_num) (by norm_num) (by decide)
  refine ⟨d, hd, ?_, ?_⟩
  · rw [this.1]; norm_num
  · rw [this.2]; norm_num

/-- C4 fails as stated: with base `x` 1000.5, item size 20 and margin 4, the
descriptor of cell `(0, 0)` has `x` field 1000, not 1000.5. -/
theorem createGrid_position_counterexample :
    IsSquare 12 threeCellGrid ∧
    (selectedCells 12 threeCellGrid)[0]? = some (0, 0) ∧
    jsToNumber "20" = .fin 20 ∧ jsToNumber "4" = .fin 4 ∧
    ∃ d, (buildWidgets previewSettings ⟨objectTypes, threeCellGrid⟩ (.fin (2001 / 2)) (.fin 500)
            ⟨"shape", "4", "20", ""⟩).2.1.widgets[0]? = some d ∧
      d.x = .fin 1000 ∧ d.x ≠ .fin (2001 / 2 + 0 * (20 + 4)) := by
  have t20 : jsToNumber "20" = .fin 20 := by
    have := jsToNumber_sample.1
    rw [this]; norm_num
  have t4 : jsToNumber "4" = .fin 4 := by
    have := jsToNumber_sample.2
    rw [this]; norm_num
  have e0 : Exact (0 : ℚ) := exact_of_scaled _ 0 (by norm_num) (by norm_num)
  have e20 : Exact (20 : ℚ) := exact_of_scaled _ 20480 (by norm_num) (by norm_num [abs_le])
  have e4 : Exact (4 : ℚ) := exact_of_scaled _ 4096 (by norm_num) (by norm_num [abs_le])
  have eb : Exact (2001 / 2 : ℚ) :=
    exact_of_scaled _ 1024512 (by norm_num) (by norm_num [abs_le])
  have hx : jsParseIntNumber
      (jsAdd (jsAdd (.fin (2001 / 2)) (jsMul (.fin ((0 : Nat) : ℚ)) (jsToNumber "20")))
        (jsMul (.fin ((0 : Nat) : ℚ)) (jsToNumber "4"))) = .fin 1000 := by
    rw [t20, t4, Nat.cast_zero,
      jsAdd_jsMul _ _ _ eb e0 e20 (by simpa using e0) (by simpa using eb),
      jsAdd_jsMul _ _ _ (by simpa using eb) e0 e4 (by simpa using e0) (by simpa using eb),
      jsParseIntNumber_nonneg _ (by simpa using eb) (by norm_num)]
    congr 1
    have : ⌊(2001 / 2 : ℚ) + 0 * 20 + 0 * 4⌋ = 1000 := by
      rw [Int.floor_eq_iff]; constructor <;> norm_num
    rw [this]; norm_num
  refine ⟨by decide, by decide, t20, t4,
    newWidget (.fin (2001 / 2)) (.fin 500) ⟨"shape", "4", "20", ""⟩
      (prepareObject objectTypes ⟨"shape", "4", "20", ""⟩).2 0 0 1, ?_, ?_, ?_⟩
  · exact buildWidgets_head ⟨objectTypes, threeCellGrid⟩ _ _ _ (by decide) 0 0 [(1, 0), (2, 0)]
      (by decide)
  · rw [newWidget_x]; exact hx
  · rw [newWidget_x, hx]
    intro h
    injection h with h
    norm_num at h

/-! ## Type-specific fields -/

theorem newWidget_shape (ot : ObjectTypes) (baseX baseY : JSNum) (form : FormValues)
    (x y k : Nat) (h : form.widgetType = "shape") :
    (newWidget baseX baseY form (prepareObject ot form).2 x y k).width
        = some (jsParseIntString form.itemSize) ∧
    (newWidget baseX baseY form (prepareObject ot form).2 x y k).height
        = some (jsParseIntString form.itemSize) := by
  have hne : ¬ form.widgetType = "sticker" := by rw [h]; decide
  simp [newWidget, prepareObject, assignObject, h]

theorem newWidget_sticker (ot : ObjectTypes) (baseX baseY : JSNum) (form : FormValues)
    (x y k : Nat) (h : form.widgetType = "sticker") :
    (newWidget baseX baseY form (prepareObject ot form).2 x y k).scale
        = some (jsDiv (jsToNumber form.itemSize) (.fin 200)) := by
  simp [newWidget, prepareObject, assignObject, h]

theorem exact_200 : Exact (200 : ℚ) :=
  exact_of_scaled _ 204800 (by norm_num) (by norm_num [abs_le])

/-- C5, as the code has it. Every descriptor of a shape-type materialization
has `width` and `height` both equal to `parseInt(itemSize)`, the integer read
from the leading digits of the field's text (`NaN` when there is none); when
the field is an unsigned decimal integer numeral of at most 12 digits this is
the item size itself, the integer the digits denote. Every descriptor of a
sticker-type materialization has `scale` equal to `itemSize / 200`, the JS
quotient of the field's numeric value, which is the exact quotient whenever
that is exactly representable. -/
theorem createGrid_type_fields (ps : PreviewSettings) (app : AppState) (baseX baseY : JSNum)
    (form : FormValues) (d : Descriptor) (hg : IsSquare ps.elementsCount app.shadowGrid)
    (hd : d ∈ (buildWidgets ps app baseX baseY form).2.1.widgets) :
    (form.widgetType = "shape" →
      d.width = some (jsParseIntString form.itemSize) ∧
      d.height = some (jsParseIntString form.itemSize) ∧
      (IsDecimalInteger form.itemSize →
        jsToNumber form.itemSize
          = .fin ((digitsValue 10 (form.itemSize.toList.map (fun c => c.toNat - 48)) : Nat) : ℚ) ∧
        d.width = some (jsToNumber form.itemSize) ∧
        d.height = some (jsToNumber form.itemSize))) ∧
    (form.widgetType = "sticker" →
      d.scale = some (jsDiv (jsToNumber form.itemSize) (.fin 200)) ∧
      ∀ v : ℚ, jsToNumber form.itemSize = .fin v → Exact v → Exact (v / 200) →
        d.scale = some (.fin (v / 200))) := by
  rw [buildWidgets_eq ps app baseX baseY form (le_of_eq hg.1.symm)] at hd
  obtain ⟨p, _, k, rfl⟩ := mem_numbered _ _ _ _ hd
  constructor
  · intro h
    obtain ⟨hw, hh⟩ := newWidget_shape app.objectTypes baseX baseY form p.1 p.2 k h
    refine ⟨hw, hh, ?_⟩
    intro hdig
    obtain ⟨e1, e2⟩ := decimalInteger_value form.itemSize hdig
    refine ⟨e2, ?_, ?_⟩
    · rw [hw, e1, e2]
    · rw [hh, e1, e2]
  · intro h
    have hs := newWidget_sticker app.objectTypes baseX baseY form p.1 p.2 k h
    refine ⟨hs, ?_⟩
    intro v hv ev evq
    rw [hs, hv]
    have h200 : ¬ ((200 : ℚ) < 0) := by norm_num
    simp [jsDiv, ev, evq, exact_200, h200]

/-- C5 at the spec's samples: a shape with item size 50 has width 50 and height
50; a sticker with item size 100 has scale 0.5. -/
theorem createGrid_type_fields_witness :
    IsSquare 12 threeCellGrid ∧
    (∃ d, (buildWidgets previewSettings ⟨objectTypes, threeCellGrid⟩ (.fin 0) (.fin 0)
            ⟨"shape", "4", "50", ""⟩).2.1.widgets[0]? = some d ∧
          d.width = some (.fin 50) ∧ d.height = some (.fin 50)) ∧
    (∃ d, (buildWidgets previewSettings ⟨objectTypes, threeCellGrid⟩ (.fin 0) (.fin 0)
            ⟨"sticker", "4", "100", ""⟩).2.1.widgets[0]? = some d ∧
          d.scale = some (.fin (1 / 2))) := by
  refine ⟨by decide, ?_, ?_⟩
  · have h0 := buildWidgets_head ⟨objectTypes, threeCellGrid⟩ (.fin 0) (.fin 0)
      ⟨"shape", "4", "50", ""⟩ (by decide) 0 0 [(1, 0), (2, 0)] (by decide)
    have h := ((createGrid_type_fields previewSettings ⟨objectTypes, threeCellGrid⟩ (.fin 0)
      (.fin 0) ⟨"shape", "4", "50", ""⟩ _ (by decide) (List.getElem?_mem h0)).1 rfl).2.2
      (by decide)
    have hv : digitsValue 10 ("50".toList.map (fun c => c.toNat - 48)) = 50 := by decide
    have e : jsToNumber "50" = .fin 50 := by
      rw [h.1]
      show JSNum.fin ((digitsValue 10 ("50".toList.map (fun c => c.toNat - 48)) : Nat) : ℚ) = _
      rw [hv]; norm_num
    exact ⟨_, h0, h.2.1.trans (congrArg some e), h.2.2.trans (congrArg some e)⟩
  · have h0 := buildWidgets_head ⟨objectTypes, threeCellGrid⟩ (.fin 0) (.fin 0)
      ⟨"sticker", "4", "100", ""⟩ (by decide) 0 0 [(1, 0), (2, 0)] (by decide)
    have hv : digitsValue 10 ("100".toList.map (fun c => c.toNat - 48)) = 100 := by decide
    have e : jsToNumber "100" = .fin 100 := by
      rw [(decimalInteger_value "100" (by decide)).2, hv]; norm_num
    have h := ((createGrid_type_fields previewSettings ⟨objectTypes, threeCellGrid⟩ (.fin 0)
      (.fin 0) ⟨"sticker", "4", "100", ""⟩ _ (by decide) (List.getElem?_mem h0)).2 rfl).2
      100 e (exact_of_scaled _ 102400 (by norm_num) (by norm_num [abs_le]))
      (exact_of_scaled _ 512 (by norm_num) (by norm_num [abs_le]))
    refine ⟨_, h0, ?_⟩
    rw [h]; norm_num

/-- C5 fails as stated: a shape-type materialization with item size 50.5 gives
descriptors of width and height 50, not 50.5. -/
theorem createGrid_type_fields_counterexample :
    IsSquare 12 threeCellGrid ∧
    jsToNumber "50.5" = .fin (101 / 2) ∧
    ∃ d, (buildWidgets previewSettings ⟨objectTypes, threeCellGrid⟩ (.fin 0) (.fin 0)
            ⟨"shape", "4", "50.5", ""⟩).2.1.widgets[0]? = some d ∧
      d.width = some (.fin 50) ∧ d.height = some (.fin 50) ∧
      (JSNum.fin 50 ≠ JSNum.fin (101 / 2)) := by
  have h0 := buildWidgets_head ⟨objectTypes, threeCellGrid⟩ (.fin 0) (.fin 0)
    ⟨"shape", "4", "50.5", ""⟩ (by decide) 0 0 [(1, 0), (2, 0)] (by decide)
  obtain ⟨hw, hh⟩ := newWidget_shape objectTypes (.fin 0) (.fin 0) ⟨"shape", "4", "50.5", ""⟩
    0 0 1 rfl
  have hp : jsParseIntString "50.5" = .fin 50 := by decide
  have hn : jsToNumber "50.5" = .fin (101 / 2) := by
    rw [jsToNumber_decimal "50.5" 505 1 (by decide) (by decide) (by decide)
      (exact_of_scaled _ 51712 (by norm_num) (by norm_num [abs_le]))]
    norm_num
  refine ⟨by decide, hn, _, h0, ?_, ?_, ?_⟩
  · rw [hw]; exact congrArg some hp
  · rw [hh]; exact congrArg some hp
  · intro h
    injection h with h
    norm_num at h

end Grider
